import Mathlib

/-
  Shallow embedding of the RevPerfect ingestion pipeline and comparison
  endpoints, translated from the TypeScript sources:
    - config/columnMapping.ts        (COLUMN_INDICES, parseStayDate, parseNumericValue, ...)
    - services/fileProcessor.service.ts (parseLine, validateRow, parseHistoryForecastFile, extractSnapshotTime)
    - services/snapshot.service.ts   (checkDuplicateByHash, createSnapshotRecord, saveSnapshotData,
                                      markSnapshotFailed, updateSeedActualsWithHistory)
    - jobs/emailWatcher.job.ts       (per-attachment pipeline of processEmails)
    - routes/api.ts                  (pickup, daily pickup and STLY comparison endpoints)
  Strings are modelled as lists of characters; JavaScript numbers as rationals;
  timestamps as integer milliseconds; the relational store as explicit lists.
-/

namespace RevPerfect

/-! ## JavaScript string primitives -/

/-- Model of the JS character class checked by String.prototype.trim and the
\s class of the cleanup regex in parseNumericValue (common whitespace only). -/
def isJsSpace (c : Char) : Bool := c = ' ' || c = '\t' || c = '\n' || c = '\r'

/-- Model of JS String.prototype.split with a single-character separator:
splitting the empty string yields one empty field, and separators at the ends
produce empty fields, exactly as in JS. -/
def splitCh (sep : Char) : List Char → List (List Char)
  | [] => [[]]
  | c :: rest =>
    if c = sep then [] :: splitCh sep rest
    else
      match splitCh sep rest with
      | [] => [[c]]
      | h :: t => (c :: h) :: t

/-- Model of JS String.prototype.trim restricted to common whitespace. -/
def trimC (l : List Char) : List Char :=
  ((l.dropWhile isJsSpace).reverse.dropWhile isJsSpace).reverse

/-- Decimal value of a list of digit characters (most significant first). -/
def digitsVal (l : List Char) : Nat := l.foldl (fun a c => a * 10 + (c.toNat - 48)) 0

/-- Model of JS Number() on the strings this program feeds it: the empty
string converts to 0 and a plain run of decimal digits converts to its value;
anything else is NaN, encoded as none. -/
def jsNumberValue (l : List Char) : Option Nat :=
  if l.isEmpty then some 0
  else if l.all Char.isDigit then some (digitsVal l) else none

/-- The truthiness test the date parser applies to each parsed component:
a missing part (undefined), NaN, and 0 are all falsy and rejected. -/
def jsTruthyNum (o : Option (List Char)) : Option Nat :=
  match o.bind jsNumberValue with
  | some (n + 1) => some (n + 1)
  | _ => none

/-! ## Calendar dates (config/columnMapping.ts) -/

/-- A calendar date as stored in the stayDate column (year is the full
four-digit year). -/
structure CalDate where
  year : Nat
  month : Nat
  day : Nat
deriving DecidableEq, Repr

/-- Gregorian leap-year rule, as implemented by the JS Date object used for
the rollover validation in parseStayDate. -/
def isLeapYear (y : Nat) : Bool := (y % 4 = 0 && y % 100 ≠ 0) || y % 400 = 0

/-- Days in a month of the Gregorian calendar (JS Date semantics). -/
def daysInMonth (y m : Nat) : Nat :=
  if m = 2 then (if isLeapYear y then 29 else 28)
  else if m = 4 ∨ m = 6 ∨ m = 9 ∨ m = 11 then 30
  else 31

/-- parseStayDate from config/columnMapping.ts: take the part before the
first space (dropping the weekday token), split it on slashes, convert the
first three parts with Number(), reject any falsy component (missing, NaN or
zero), range-check day and month, map the two-digit year to 2000 + YY, and
validate the day against the actual month via the JS Date rollover check
(new Date(y, m-1, d) keeps getDate() = d iff d fits in the month). Errors are
thrown in the source and modelled as none. -/
def parseStayDate (dateStr : List Char) : Option CalDate :=
  let datePart := (splitCh ' ' dateStr).headD []
  let parts := splitCh '/' datePart
  match jsTruthyNum parts[0]?, jsTruthyNum parts[1]?, jsTruthyNum parts[2]? with
  | some day, some month, some year =>
    if day < 1 ∨ 31 < day then none
    else if month < 1 ∨ 12 < month then none
    else
      let fullYear := 2000 + year
      if day ≤ daysInMonth fullYear month then some ⟨fullYear, month, day⟩ else none
  | _, _, _ => none

/-- Character for a single decimal digit. -/
def digitChar (n : Nat) : Char := Char.ofNat (48 + n)

/-- Two-digit zero-padded decimal rendering (String(n).padStart(2, "0") for
n below 100). -/
def pad2 (n : Nat) : List Char := [digitChar (n / 10 % 10), digitChar (n % 10)]

/-- Modelled from the spec: the repository stores stay dates as Date values
and has no DD/MM/YY writer, so the reformatting direction of the round-trip
property is modelled from the spec sentence: render a calendar date back into
the DD/MM/YY shape of the source files, two digits per component, with the
two-digit year taken modulo 100. -/
def formatDDMMYY (c : CalDate) : List Char :=
  pad2 c.day ++ '/' :: (pad2 c.month ++ '/' :: pad2 (c.year % 100))

/-! ## Numeric fields and data types (config/columnMapping.ts) -/

/-- Longest-prefix decimal parse modelling JS parseFloat on the cleaned
numeric strings: optional sign, an integer digit run, an optional fraction
after a dot; NaN (none) iff no digit was consumed. Trailing characters are
ignored, as parseFloat does. -/
def parseFloatLeading (l : List Char) : Option ℚ :=
  let signAndRest : ℚ × List Char :=
    match l with
    | '-' :: r => (-1, r)
    | '+' :: r => (1, r)
    | _ => (1, l)
  let ip := signAndRest.2.takeWhile Char.isDigit
  let rest2 := signAndRest.2.dropWhile Char.isDigit
  let fp : List Char :=
    match rest2 with
    | '.' :: r => r.takeWhile Char.isDigit
    | _ => []
  if ip.isEmpty && fp.isEmpty then none
  else some (signAndRest.1 * ((digitsVal ip : ℚ) + (digitsVal fp : ℚ) / (10 : ℚ) ^ fp.length))

/-- parseNumericValue from config/columnMapping.ts: empty or blank input is 0;
otherwise strip commas, whitespace and percent signs, parseFloat the rest, and
fall back to 0 when that yields NaN. -/
def parseNumericValue (value : List Char) : ℚ :=
  if trimC value = [] then 0
  else
    let cleaned := value.filter (fun c => ¬(c = ',' || c = '%' || isJsSpace c))
    match parseFloatLeading cleaned with
    | some q => q
    | none => 0

inductive DataType
  | HISTORY
  | FORECAST
deriving DecidableEq, Repr

/-- parseDataType from config/columnMapping.ts: trim, uppercase, compare. -/
def parseDataType (type : List Char) : DataType :=
  if (trimC type).map Char.toUpper = "HISTORY".data then .HISTORY else .FORECAST

/-- calculateOccupancyPercent from config/columnMapping.ts. -/
def calculateOccupancyPercent (roomNights totalAvailableRooms : ℚ) : ℚ :=
  if totalAvailableRooms = 0 then 0 else roomNights / totalAvailableRooms * 100

/-- calculateADR from config/columnMapping.ts. -/
def calculateADR (roomRevenue roomNights : ℚ) : ℚ :=
  if roomNights = 0 then 0 else roomRevenue / roomNights

/-- calculateRevPAR from config/columnMapping.ts. -/
def calculateRevPAR (roomRevenue totalAvailableRooms : ℚ) : ℚ :=
  if totalAvailableRooms = 0 then 0 else roomRevenue / totalAvailableRooms

/-! ## File parser (services/fileProcessor.service.ts) -/

/-- COLUMN_INDICES positions with known semantics (1-based, after discarding
the placeholder column 0 of each line). -/
def DATA_TYPE_IDX : Nat := 1
def STAY_DATE_IDX : Nat := 2
def ROOM_NIGHTS_IDX : Nat := 3
def ROOM_REVENUE_IDX : Nat := 10
def OO_ROOMS_IDX : Nat := 15

/-- Default raw value for a column: the three numeric key columns fall back
to "0", the rest to the empty string (the || fallbacks in parseLine). -/
def colDefault (k : Nat) : List Char :=
  if k = ROOM_NIGHTS_IDX ∨ k = ROOM_REVENUE_IDX ∨ k = OO_ROOMS_IDX then ['0'] else []

/-- The raw text of column k (1-based after the discard): trimmed, with the
column default substituted when the cell is missing or trims to empty
(columns[k-1]?.trim() || default). -/
def rawCol (columns : List (List Char)) (k : Nat) : List Char :=
  match columns[k - 1]? with
  | some v => let t := trimC v; if t = [] then colDefault k else t
  | none => colDefault k

/-- A parsed row candidate, as produced by parseLine: the data type, the
parsed stay date, all 30 raw columns, the parsed numeric key values, the
three derived metrics and the source line index. -/
structure ParsedRow where
  dataType : DataType
  stayDate : CalDate
  cols : List (List Char)
  roomNights : ℚ
  roomRevenue : ℚ
  ooRooms : ℚ
  occupancyPercent : ℚ
  adr : ℚ
  revPAR : ℚ
  rowIndex : Nat
deriving DecidableEq, Repr

/-- validateRow: at least 30 columns must remain after discarding column 0,
and the data type, stay date and room nights cells must not trim to empty. -/
def validateRow (columns : List (List Char)) : Bool :=
  if columns.length < 30 then false
  else
    trimC (columns.getD (DATA_TYPE_IDX - 1) []) ≠ [] &&
    trimC (columns.getD (STAY_DATE_IDX - 1) []) ≠ [] &&
    trimC (columns.getD (ROOM_NIGHTS_IDX - 1) []) ≠ []

/-- parseLine: split the line on tabs, discard column 0, validate, extract
the 30 raw columns and the 5 key values, compute the three derived metrics.
A stay-date parse error is caught in the source and yields null (none). -/
def parseLine (line : List Char) (rowIndex : Nat) (totalAvailableRooms : ℚ) :
    Option ParsedRow :=
  let allColumns := splitCh '\t' line
  let columns := allColumns.drop 1
  if validateRow columns then
    let col1 := rawCol columns DATA_TYPE_IDX
    let col2 := rawCol columns STAY_DATE_IDX
    let col3 := rawCol columns ROOM_NIGHTS_IDX
    let col10 := rawCol columns ROOM_REVENUE_IDX
    let col15 := rawCol columns OO_ROOMS_IDX
    match parseStayDate col2 with
    | none => none
    | some stayDate =>
      let roomNights := parseNumericValue col3
      let roomRevenue := parseNumericValue col10
      let ooRooms := parseNumericValue col15
      some
        { dataType := parseDataType col1
          stayDate
          cols := (List.range 30).map (fun i => rawCol columns (i + 1))
          roomNights
          roomRevenue
          ooRooms
          occupancyPercent := calculateOccupancyPercent roomNights totalAvailableRooms
          adr := calculateADR roomRevenue roomNights
          revPAR := calculateRevPAR roomRevenue totalAvailableRooms
          rowIndex }
  else none

/-- parseHistoryForecastFile: decode the attachment bytes to text, split into
lines, drop blank lines, and parse each remaining line (by its index in the
filtered list); lines that fail to parse are skipped. -/
def parseHistoryForecastFile (content : List Char) (totalAvailableRooms : ℚ) :
    List ParsedRow :=
  let lines := (splitCh '\n' content).filter (fun l => ¬ trimC l = [])
  lines.enum.filterMap (fun p => parseLine p.2 p.1 totalAvailableRooms)

/-- First index at which pattern occurs as a sublist, if any. -/
def findSublistIdx (pattern : List Char) : List Char → Option Nat
  | [] => if pattern = [] then some 0 else none
  | c :: rest =>
    if pattern.isPrefixOf (c :: rest) then some 0
    else (findSublistIdx pattern rest).map (· + 1)

/-- extractSnapshotTime: match history_forecast(\d+) case-insensitively in
the filename; a ten-digit-range value is treated as Unix seconds, a larger
one as milliseconds; otherwise fall back to the wall-clock time (passed in
as now). The result is a timestamp in milliseconds. -/
def extractSnapshotTime (filename : List Char) (now : Int) : Int :=
  let lower := filename.map Char.toLower
  match findSublistIdx "history_forecast".data lower with
  | none => now
  | some i =>
    let afterPattern := (lower.drop (i + ("history_forecast".data).length))
    let digits := afterPattern.takeWhile Char.isDigit
    if digits.isEmpty then now
    else
      let timestamp : Int := (digitsVal digits : Int)
      if 1000000000 < timestamp ∧ timestamp < 9999999999 then timestamp * 1000
      else if 1000000000000 < timestamp then timestamp
      else now

/-! ## Data model (prisma schema, as used by the services) -/

inductive ProcStatus
  | PENDING
  | PROCESSING
  | COMPLETED
  | FAILED
deriving DecidableEq, Repr

/-- A HistoryForecastSnapshot record. Timestamps are integer milliseconds. -/
structure Snapshot where
  id : Nat
  hotelId : Nat
  snapshotTime : Int
  originalFilename : List Char
  blobUrl : List Char
  fileHash : List Char
  totalAvailableRoomsSnapshot : ℚ
  isSeedSnapshot : Bool
  processed : Bool
  processingStatus : ProcStatus
  processingError : Option (List Char)
  rowCount : Option Nat
deriving DecidableEq, Repr

/-- A HistoryForecastData record: the 30 raw columns, the parsed key values,
the three derived metrics and the source line index, plus the denormalized
hotel id. -/
structure DataRow where
  id : Nat
  snapshotId : Nat
  hotelId : Nat
  stayDate : CalDate
  dataType : DataType
  cols : List (List Char)
  roomNights : ℚ
  roomRevenue : ℚ
  ooRooms : ℚ
  occupancyPercent : ℚ
  adr : ℚ
  revPAR : ℚ
  rowIndex : Nat
deriving DecidableEq, Repr

instance : Inhabited DataRow :=
  ⟨{ id := 0, snapshotId := 0, hotelId := 0, stayDate := ⟨0, 0, 0⟩,
     dataType := .FORECAST, cols := [], roomNights := 0, roomRevenue := 0,
     ooRooms := 0, occupancyPercent := 0, adr := 0, revPAR := 0, rowIndex := 0 }⟩

/-- The relational store: both tables plus the autoincrement counters that
stand in for id generation. -/
structure DB where
  snapshots : List Snapshot
  rows : List DataRow
  nextSnapshotId : Nat
  nextRowId : Nat
deriving DecidableEq, Repr

/-- A Hotel record (the fields the ingestion pipeline reads). -/
structure Hotel where
  id : Nat
  name : List Char
  email : List Char
  totalAvailableRooms : ℚ
  isActive : Bool
deriving DecidableEq, Repr

/-! ## Snapshot service (services/snapshot.service.ts) -/

/-- calculateFileHash (utils/fileHash.ts) computes a SHA-256 fingerprint of
the attachment bytes; it is modelled as a collision-free content fingerprint,
represented by the content itself, so that byte-identical inputs (and only
those) share a hash. -/
def calculateFileHash (buffer : List Char) : List Char := buffer

/-- checkDuplicateByHash: findUnique on the globally unique fileHash column,
with no hotel filter. -/
def checkDuplicateByHash (db : DB) (fileHash : List Char) : Option Snapshot :=
  db.snapshots.find? (fun s => s.fileHash == fileHash)

/-- createSnapshotRecord (phase 1): insert a new snapshot in PENDING state,
before any parsing, and return it. -/
def createSnapshotRecord (db : DB) (hotelId : Nat) (snapshotTime : Int)
    (originalFilename blobUrl fileHash : List Char)
    (totalAvailableRoomsSnapshot : ℚ) (isSeedSnapshot : Bool) : DB × Snapshot :=
  let snap : Snapshot :=
    { id := db.nextSnapshotId, hotelId, snapshotTime, originalFilename, blobUrl,
      fileHash, totalAvailableRoomsSnapshot, isSeedSnapshot,
      processed := false, processingStatus := .PENDING,
      processingError := none, rowCount := none }
  ({ db with snapshots := db.snapshots ++ [snap],
             nextSnapshotId := db.nextSnapshotId + 1 }, snap)

/-- markSnapshotFailed: set the snapshot's status to FAILED and attach the
error text; an update against an unknown id throws inside, is caught and
logged, and leaves the store unchanged (the map then changes nothing). -/
def markSnapshotFailed (db : DB) (snapshotId : Nat) (error : List Char) : DB :=
  { db with
    snapshots := db.snapshots.map (fun s =>
      if s.id == snapshotId then
        { s with processingStatus := .FAILED, processingError := some error }
      else s) }

/-- The unique-constraint diagnostic produced by the store when the bulk
insert hits a duplicate (snapshotId, stayDate, dataType) key. -/
def constraintMsg : List Char :=
  "Unique constraint failed on the fields: (snapshotId, stayDate, dataType)".data

/-- The not-found diagnostic thrown by saveSnapshotData for an unknown id. -/
def notFoundMsg (snapshotId : Nat) : List Char :=
  ("Snapshot " ++ Nat.repr snapshotId ++ " not found").data

/-- True iff bulk-inserting these parsed rows for this snapshot would violate
the unique (snapshotId, stayDate, dataType) constraint, either among the new
rows themselves or against rows already stored for the same snapshot. -/
def insertConflict (db : DB) (snapshotId : Nat) (rows : List ParsedRow) : Bool :=
  (rows.map (fun r => (r.stayDate, r.dataType))).length ≠
      ((rows.map (fun r => (r.stayDate, r.dataType))).dedup).length ||
  rows.any (fun r => db.rows.any (fun e =>
    e.snapshotId == snapshotId && e.stayDate == r.stayDate && e.dataType == r.dataType))

/-- The DataRow records created by the bulk insert of phase 2: hotel id
copied from the snapshot, ids drawn from the autoincrement counter. -/
def buildRows (nextRowId snapshotId hotelId : Nat) (rows : List ParsedRow) :
    List DataRow :=
  rows.enum.map (fun p =>
    { id := nextRowId + p.1, snapshotId, hotelId,
      stayDate := p.2.stayDate, dataType := p.2.dataType, cols := p.2.cols,
      roomNights := p.2.roomNights, roomRevenue := p.2.roomRevenue,
      ooRooms := p.2.ooRooms, occupancyPercent := p.2.occupancyPercent,
      adr := p.2.adr, revPAR := p.2.revPAR, rowIndex := p.2.rowIndex })

/-- saveSnapshotData (phase 2): look the snapshot up (outside the
transaction; unknown ids throw), then run one transaction that flips the
status to PROCESSING, bulk-inserts all rows with the snapshot's hotel id,
and marks the snapshot COMPLETED with the row count. A transaction failure
(an injected storage fault, or the unique-key constraint firing during the
insert) rolls every write of the transaction back, after which the catch
block itself calls markSnapshotFailed with the diagnostic and rethrows.
The second component is the rethrown error message (none on success);
intermediate in-transaction states are invisible after commit or rollback. -/
def saveSnapshotData (db : DB) (snapshotId : Nat) (rows : List ParsedRow)
    (fault : Option (List Char)) : DB × Option (List Char) :=
  match db.snapshots.find? (fun s => s.id == snapshotId) with
  | none => (db, some (notFoundMsg snapshotId))
  | some snapshot =>
    if fault.isSome || insertConflict db snapshotId rows then
      let msg := fault.getD constraintMsg
      (markSnapshotFailed db snapshotId msg, some msg)
    else
      ({ db with
         snapshots := db.snapshots.map (fun s =>
           if s.id == snapshotId then
             { s with processed := true, processingStatus := .COMPLETED,
                      rowCount := some rows.length }
           else s),
         rows := db.rows ++ buildRows db.nextRowId snapshotId snapshot.hotelId rows,
         nextRowId := db.nextRowId + rows.length }, none)

/-! ## Seed overlay (services/snapshot.service.ts, updateSeedActualsWithHistory) -/

/-- Insertion of a snapshot into a list sorted by ascending snapshotTime. -/
def insertAscByTime (s : Snapshot) : List Snapshot → List Snapshot
  | [] => [s]
  | t :: ts =>
    if s.snapshotTime ≤ t.snapshotTime then s :: t :: ts else t :: insertAscByTime s ts

/-- Sort snapshots by ascending snapshotTime (orderBy snapshotTime asc). -/
def sortByTimeAsc (l : List Snapshot) : List Snapshot :=
  l.foldr insertAscByTime []

/-- Insertion of a snapshot into a list sorted by descending snapshotTime. -/
def insertDescByTime (s : Snapshot) : List Snapshot → List Snapshot
  | [] => [s]
  | t :: ts =>
    if t.snapshotTime ≤ s.snapshotTime then s :: t :: ts else t :: insertDescByTime s ts

/-- Sort snapshots by descending snapshotTime (orderBy snapshotTime desc). -/
def sortByTimeDesc (l : List Snapshot) : List Snapshot :=
  l.foldr insertDescByTime []

/-- findFirst for the hotel's seed snapshot: completed, processed, flagged
seed, earliest snapshot time first. -/
def findSeedSnapshot (db : DB) (hotelId : Nat) : Option Snapshot :=
  (sortByTimeAsc (db.snapshots.filter (fun s =>
    s.hotelId == hotelId && s.isSeedSnapshot && s.processed &&
    s.processingStatus == ProcStatus.COMPLETED))).head?

/-- The last n elements of a list (Array.prototype.slice(-n)). -/
def takeLast (n : Nat) (l : List α) : List α := l.drop (l.length - n)

/-- Overwrite the raw columns, key values and derived metrics of a stored
row with those of a fresh history row; id, snapshot id, hotel id, stay date,
data type and row index are not part of the update payload. -/
def overwriteRow (e : DataRow) (hr : ParsedRow) : DataRow :=
  { e with cols := hr.cols, roomNights := hr.roomNights,
           roomRevenue := hr.roomRevenue, ooRooms := hr.ooRooms,
           occupancyPercent := hr.occupancyPercent, adr := hr.adr,
           revPAR := hr.revPAR }

/-- One iteration of the overlay loop: findFirst a seed row with the same
stay date and HISTORY type, and if present update the row with that id. -/
def applyHistoryRow (seedId : Nat) (db : DB) (hr : ParsedRow) : DB :=
  match db.rows.find? (fun r =>
      r.snapshotId == seedId && r.stayDate == hr.stayDate &&
      r.dataType == DataType.HISTORY) with
  | some existingRow =>
    { db with rows := db.rows.map (fun r =>
        if r.id == existingRow.id then overwriteRow r hr else r) }
  | none => db

/-- updateSeedActualsWithHistory: locate the hotel's seed snapshot (earliest
completed seed); keep the last 7 rows with dataType HISTORY of the given
rows; sequentially update the matching seed rows. Without a seed snapshot,
or with no history rows, nothing happens; errors are swallowed. -/
def updateSeedActualsWithHistory (db : DB) (hotelId : Nat)
    (historyRows : List ParsedRow) : DB :=
  match findSeedSnapshot db hotelId with
  | none => db
  | some seedSnapshot =>
    let historyData := takeLast 7 (historyRows.filter (fun r => r.dataType == DataType.HISTORY))
    historyData.foldl (applyHistoryRow seedSnapshot.id) db

/-! ## Orchestrator (jobs/emailWatcher.job.ts, per-attachment pipeline) -/

/-- The service calls the attachment loop of processEmails can make, in the
order the source makes them; the seed-overlay entry point of the snapshot
service is listed because the spec names it as part of the cycle. -/
inductive SvcCall
  | checkDuplicateByHash
  | uploadFile
  | markAsProcessed
  | createSnapshotRecord
  | parseFile
  | saveSnapshotData
  | markSnapshotFailed
  | updateSeedActualsWithHistory
  | recordProcessedEmail
deriving DecidableEq, Repr

/-- Outcome of processing one attachment inside the cycle. -/
inductive Outcome
  | skippedNonTxt
  | skippedDuplicate
  | processed (snapshotId : Nat)
  | failedParse (snapshotId : Nat)
deriving DecidableEq, Repr

/-- One mail attachment: filename and (decoded) content bytes. -/
structure AttachmentInput where
  name : List Char
  contentBytes : List Char
deriving DecidableEq, Repr

/-- attachment.name.toLowerCase().endsWith(".txt"). -/
def endsWithTxt (name : List Char) : Bool :=
  List.isSuffixOf ".txt".data (name.map Char.toLower)

/-- The body of the attachment loop of processEmails, for one attachment of
an identified active hotel: filter to .txt files; hash the content; skip on
a content-hash duplicate (before any write); upload the bytes and mark the
mail item processed; derive the snapshot time from the filename (falling
back to the wall clock, passed as now); create the PENDING snapshot
(phase 1, isSeedSnapshot defaulted to false); parse; save (phase 2, with an
optional injected storage fault); on a phase-2 error, catch it and mark the
snapshot FAILED with the error message; on success, record the processed
mail item. The trace lists the service calls made, in order. -/
def processAttachment (db : DB) (hotel : Hotel) (att : AttachmentInput)
    (now : Int) (fault : Option (List Char)) : DB × Outcome × List SvcCall :=
  if ¬ endsWithTxt att.name then (db, .skippedNonTxt, [])
  else
    let fileHash := calculateFileHash att.contentBytes
    match checkDuplicateByHash db fileHash with
    | some _ => (db, .skippedDuplicate, [.checkDuplicateByHash])
    | none =>
      let blobUrl := att.name
      let snapshotTime := extractSnapshotTime att.name now
      let created := createSnapshotRecord db hotel.id snapshotTime att.name
        blobUrl fileHash hotel.totalAvailableRooms false
      let parsedRows := parseHistoryForecastFile att.contentBytes hotel.totalAvailableRooms
      let saved := saveSnapshotData created.1 created.2.id parsedRows fault
      match saved.2 with
      | some errorMsg =>
        (markSnapshotFailed saved.1 created.2.id errorMsg,
         .failedParse created.2.id,
         [.checkDuplicateByHash, .uploadFile, .markAsProcessed,
          .createSnapshotRecord, .parseFile, .saveSnapshotData, .markSnapshotFailed])
      | none =>
        (saved.1, .processed created.2.id,
         [.checkDuplicateByHash, .uploadFile, .markAsProcessed,
          .createSnapshotRecord, .parseFile, .saveSnapshotData, .recordProcessedEmail])

/-! ## Comparison endpoints (routes/api.ts) -/

/-- The snapshot1Id / snapshot2Id query parameters of the pickup routes. -/
structure PickupQuery where
  snapshot1Id : Option Nat
  snapshot2Id : Option Nat
deriving DecidableEq, Repr

/-- Result of the snapshot-selection prologue shared verbatim by the pickup
and daily-pickup routes: the ordered (baseline, current) pair on success, or
the route's error response. -/
inductive SelectResult
  | ok (s1 s2 : Snapshot)
  | notFound
  | wrongHotel
  | needTwo
deriving DecidableEq, Repr

/-- findUnique on the snapshot id. -/
def findUniqueSnapshot (db : DB) (id : Nat) : Option Snapshot :=
  db.snapshots.find? (fun s => s.id == id)

/-- The default-path query of both pickup routes: the latest two completed
non-seed snapshots of the hotel, newest first. -/
def latestTwoCompleted (db : DB) (hotelId : Nat) : List Snapshot :=
  (sortByTimeDesc (db.snapshots.filter (fun s =>
    s.hotelId == hotelId && s.processed &&
    s.processingStatus == ProcStatus.COMPLETED && !s.isSeedSnapshot))).take 2

/-- The selection prologue appearing identically in GET /pickup/:hotelId and
GET /pickup/:hotelId/daily: with both ids supplied, findUnique each, 404 if
either is missing, 400 if either belongs to another hotel; otherwise default
to the latest two completed non-seed snapshots (400 when fewer than two
exist). Finally swap the pair when snapshot1 is strictly newer, so that
snapshot1 is the baseline. -/
def selectPickupSnapshots (db : DB) (hotelId : Nat) (q : PickupQuery) : SelectResult :=
  match q.snapshot1Id, q.snapshot2Id with
  | some id1, some id2 =>
    match findUniqueSnapshot db id1, findUniqueSnapshot db id2 with
    | some s1, some s2 =>
      if s1.hotelId ≠ hotelId ∨ s2.hotelId ≠ hotelId then .wrongHotel
      else if s2.snapshotTime < s1.snapshotTime then .ok s2 s1 else .ok s1 s2
    | _, _ => .notFound
  | _, _ =>
    match latestTwoCompleted db hotelId with
    | [a, b] =>
      -- snapshot2 := newest, snapshot1 := previous, then the same swap check
      if a.snapshotTime < b.snapshotTime then .ok a b else .ok b a
    | _ => .needTwo

/-- Pickup metadata for UI formatting (createPickupMetadata): the value
rounded to two decimals, and sign flags computed on the unrounded value. -/
structure PickupMeta where
  value : ℚ
  isPositive : Bool
  isNegative : Bool
  isZero : Bool
deriving DecidableEq, Repr

/-- Math.round: round half toward positive infinity. -/
def jsRound (q : ℚ) : ℤ := ⌊q + 1 / 2⌋

/-- Number(v.toFixed(2)): two-decimal rounding, halves away from zero. -/
def jsToFixed2 (q : ℚ) : ℚ :=
  (if q < 0 then -(⌊-q * 100 + 1 / 2⌋ : ℤ) else (⌊q * 100 + 1 / 2⌋ : ℤ)) / 100

/-- createPickupMetadata from routes/api.ts. -/
def createPickupMetadata (value : ℚ) : PickupMeta :=
  { value := jsToFixed2 value, isPositive := decide (0 < value),
    isNegative := decide (value < 0), isZero := decide (value = 0) }

/-- Chronological key of a calendar date (the order of ISO date strings). -/
def dateKey (c : CalDate) : Nat := c.year * 10000 + c.month * 100 + c.day

/-- Insertion of a row into a list sorted by ascending stay date. -/
def insertRowByDate (r : DataRow) : List DataRow → List DataRow
  | [] => [r]
  | t :: ts =>
    if dateKey r.stayDate ≤ dateKey t.stayDate then r :: t :: ts
    else t :: insertRowByDate r ts

/-- Sort data rows by ascending stay date (orderBy stayDate asc). -/
def sortRowsByDateAsc (l : List DataRow) : List DataRow :=
  l.foldr insertRowByDate []

/-- findMany of a snapshot's FORECAST rows ordered by stay date, as both
pickup routes issue for each side of the comparison. -/
def forecastRowsFor (db : DB) (snapshotId : Nat) : List DataRow :=
  sortRowsByDateAsc (db.rows.filter (fun r =>
    r.snapshotId == snapshotId && r.dataType == DataType.FORECAST))

/-- Lookup in the per-date JS Map built from a row list: with duplicate keys
the later entry wins, hence the last matching row. -/
def lookupByDate (rows : List DataRow) (d : CalDate) : Option DataRow :=
  (rows.filter (fun r => r.stayDate == d)).getLast?

/-- Insertion of a date into a list sorted by ascending date key. -/
def insertDateAsc (d : CalDate) : List CalDate → List CalDate
  | [] => [d]
  | t :: ts => if dateKey d ≤ dateKey t then d :: t :: ts else t :: insertDateAsc d ts

/-- Sort calendar dates ascending (Array.from(set).sort() on ISO strings). -/
def sortDatesAsc (l : List CalDate) : List CalDate := l.foldr insertDateAsc []

/-- The union of stay dates of both sides, deduplicated and sorted. -/
def allStayDates (data1 data2 : List DataRow) : List CalDate :=
  sortDatesAsc ((data1.map (·.stayDate) ++ data2.map (·.stayDate)).dedup)

/-- One row of the daily pickup payload. -/
structure DailyEntry where
  stayDate : CalDate
  rooms1 : ℚ
  revenue1 : ℚ
  adr1 : ℚ
  rooms2 : ℚ
  revenue2 : ℚ
  adr2 : ℚ
  puRooms : PickupMeta
  puRevenue : PickupMeta
  puADR : PickupMeta
deriving DecidableEq, Repr

/-- The per-date computation of GET /pickup/:hotelId/daily: zero defaults
for a date absent on a side, per-side ADR as that side's revenue/rooms ratio
(0 when rooms is 0), deltas current minus baseline. -/
def dailyEntryFor (data1 data2 : List DataRow) (d : CalDate) : DailyEntry :=
  let d1 := lookupByDate data1 d
  let d2 := lookupByDate data2 d
  let rooms1 := ((d1.map (·.roomNights)).getD 0)
  let revenue1 := ((d1.map (·.roomRevenue)).getD 0)
  let adr1 := if 0 < rooms1 then revenue1 / rooms1 else 0
  let rooms2 := ((d2.map (·.roomNights)).getD 0)
  let revenue2 := ((d2.map (·.roomRevenue)).getD 0)
  let adr2 := if 0 < rooms2 then revenue2 / rooms2 else 0
  { stayDate := d, rooms1, revenue1, adr1, rooms2, revenue2, adr2,
    puRooms := createPickupMetadata (rooms2 - rooms1),
    puRevenue := createPickupMetadata (revenue2 - revenue1),
    puADR := createPickupMetadata (adr2 - adr1) }

/-- The daily pickup payload for an ordered (baseline, current) pair. -/
def dailyPickup (db : DB) (s1 s2 : Snapshot) : List DailyEntry :=
  let data1 := forecastRowsFor db s1.id
  let data2 := forecastRowsFor db s2.id
  (allStayDates data1 data2).map (dailyEntryFor data1 data2)

/-- An HTTP-level result of a comparison route: the payload, or one of the
error responses the route can answer with. -/
inductive EndpointResult (α : Type)
  | ok (payload : α)
  | notFound
  | wrongHotel
  | needTwo
deriving DecidableEq, Repr

/-- GET /pickup/:hotelId/daily. The payload carries the ids of the baseline
and current snapshots, and the day-by-day pickup list. -/
def dailyPickupEndpoint (db : DB) (hotelId : Nat) (q : PickupQuery) :
    EndpointResult (Nat × Nat × List DailyEntry) :=
  match selectPickupSnapshots db hotelId q with
  | .ok s1 s2 => .ok (s1.id, s2.id, dailyPickup db s1 s2)
  | .notFound => .notFound
  | .wrongHotel => .wrongHotel
  | .needTwo => .needTwo

/-- Per-month accumulator of the monthly pickup computation. -/
structure MonthAgg where
  rooms : ℚ
  revenue : ℚ
  occupancy : ℚ
deriving DecidableEq, Repr

/-- The (year, month) grouping key of the monthly pickup computation. -/
def monthKey (c : CalDate) : Nat × Nat := (c.year, c.month)

/-- Sums of rooms, revenue and occupancy over one side's rows of a month. -/
def monthAggFor (rows : List DataRow) (k : Nat × Nat) : MonthAgg :=
  let sel := rows.filter (fun r => monthKey r.stayDate == k)
  { rooms := (sel.map (·.roomNights)).sum,
    revenue := (sel.map (·.roomRevenue)).sum,
    occupancy := (sel.map (·.occupancyPercent)).sum }

/-- One row of the monthly pickup payload (the English month name of the
response is presentation and is represented by the month key itself). -/
structure MonthRow where
  month : Nat × Nat
  occupancy : ℚ
  rooms : ℤ
  adr : ℚ
  revenue : ℚ
  puRooms : PickupMeta
  puADR : PickupMeta
  puRevenue : PickupMeta
deriving DecidableEq, Repr

/-- The per-month computation of GET /pickup/:hotelId: pickup as current
minus baseline sums, per-side ADR as each side's own revenue/rooms ratio. -/
def monthRowFor (data1 data2 : List DataRow) (k : Nat × Nat) : MonthRow :=
  let a1 := monthAggFor data1 k
  let a2 := monthAggFor data2 k
  let adr2 := if 0 < a2.rooms then a2.revenue / a2.rooms else 0
  let adr1 := if 0 < a1.rooms then a1.revenue / a1.rooms else 0
  { month := k, occupancy := jsToFixed2 a2.occupancy, rooms := jsRound a2.rooms,
    adr := jsToFixed2 adr2, revenue := jsToFixed2 a2.revenue,
    puRooms := createPickupMetadata (a2.rooms - a1.rooms),
    puADR := createPickupMetadata (adr2 - adr1),
    puRevenue := createPickupMetadata (a2.revenue - a1.revenue) }

/-- Insertion into a (year, month) key list sorted ascending. -/
def insertMonthKey (k : Nat × Nat) : List (Nat × Nat) → List (Nat × Nat)
  | [] => [k]
  | t :: ts =>
    if k.1 * 100 + k.2 ≤ t.1 * 100 + t.2 then k :: t :: ts else t :: insertMonthKey k ts

/-- Sort month keys ascending (localeCompare on YYYY-MM strings). -/
def sortMonthKeys (l : List (Nat × Nat)) : List (Nat × Nat) :=
  l.foldr insertMonthKey []

/-- The month-to-date block of GET /pickup/:hotelId: both sides filtered to
[first of the current month, today], summed, with occupancy of the current
side against its snapshot's captured room count. -/
structure MtdRow where
  occupancy : ℚ
  rooms : ℤ
  adr : ℚ
  revenue : ℚ
  puRooms : PickupMeta
  puADR : PickupMeta
  puRevenue : PickupMeta
deriving DecidableEq, Repr

/-- The MTD computation of GET /pickup/:hotelId. -/
def mtdRowFor (today : CalDate) (s2 : Snapshot) (data1 data2 : List DataRow) : MtdRow :=
  let som : CalDate := ⟨today.year, today.month, 1⟩
  let mtd1 := data1.filter (fun r =>
    dateKey som ≤ dateKey r.stayDate && dateKey r.stayDate ≤ dateKey today)
  let mtd2 := data2.filter (fun r =>
    dateKey som ≤ dateKey r.stayDate && dateKey r.stayDate ≤ dateKey today)
  let roomsMTD1 := (mtd1.map (·.roomNights)).sum
  let revenueMTD1 := (mtd1.map (·.roomRevenue)).sum
  let adrMTD1 := if 0 < roomsMTD1 then revenueMTD1 / roomsMTD1 else 0
  let roomsMTD2 := (mtd2.map (·.roomNights)).sum
  let revenueMTD2 := (mtd2.map (·.roomRevenue)).sum
  let adrMTD2 := if 0 < roomsMTD2 then revenueMTD2 / roomsMTD2 else 0
  let totalRooms2 := s2.totalAvailableRoomsSnapshot
  let occupancyMTD2 := if 0 < totalRooms2 then roomsMTD2 / totalRooms2 * 100 else 0
  { occupancy := jsToFixed2 occupancyMTD2, rooms := jsRound roomsMTD2,
    adr := jsToFixed2 adrMTD2, revenue := jsToFixed2 revenueMTD2,
    puRooms := createPickupMetadata (roomsMTD2 - roomsMTD1),
    puADR := createPickupMetadata (adrMTD2 - adrMTD1),
    puRevenue := createPickupMetadata (revenueMTD2 - revenueMTD1) }

/-- GET /pickup/:hotelId: selection prologue, then the MTD block and the
monthly pickup rows over the union of months of both sides. The payload
carries the baseline and current snapshot ids. -/
def pickupEndpoint (db : DB) (today : CalDate) (hotelId : Nat) (q : PickupQuery) :
    EndpointResult (Nat × Nat × MtdRow × List MonthRow) :=
  match selectPickupSnapshots db hotelId q with
  | .ok s1 s2 =>
    let data1 := forecastRowsFor db s1.id
    let data2 := forecastRowsFor db s2.id
    let months := sortMonthKeys
      ((data1.map (fun r => monthKey r.stayDate) ++
        data2.map (fun r => monthKey r.stayDate)).dedup)
    .ok (s1.id, s2.id, mtdRowFor today s2 data1 data2, months.map (monthRowFor data1 data2))
  | .notFound => .notFound
  | .wrongHotel => .wrongHotel
  | .needTwo => .needTwo

/-! ## STLY selection (routes/api.ts, GET /comparison/:hotelId/stly) -/

/-- Milliseconds per day, as in the route's window arithmetic. -/
def msPerDay : Int := 24 * 60 * 60 * 1000

/-- The route's candidate query: completed non-seed snapshots of the hotel
whose snapshot time lies within plus/minus 7 days of the point one year
before the target date (lastYearDate, precomputed by the route from the
target date), ordered by ascending snapshot time. -/
def stlyWindow (db : DB) (hotelId : Nat) (lastYearDate : Int) : List Snapshot :=
  sortByTimeAsc (db.snapshots.filter (fun s =>
    s.hotelId == hotelId && s.processed &&
    s.processingStatus == ProcStatus.COMPLETED && !s.isSeedSnapshot &&
    decide (lastYearDate - 7 * msPerDay ≤ s.snapshotTime) &&
    decide (s.snapshotTime ≤ lastYearDate + 7 * msPerDay)))

/-- The snapshot the route actually compares against: the head of the
ascending-ordered window (stlySnapshots[0]). -/
def stlySnapshotChoice (db : DB) (hotelId : Nat) (lastYearDate : Int) :
    Option Snapshot :=
  (stlyWindow db hotelId lastYearDate).head?

/-- The latest completed non-seed snapshot of the hotel (the current side of
the STLY comparison). -/
def latestSnapshotChoice (db : DB) (hotelId : Nat) : Option Snapshot :=
  (sortByTimeDesc (db.snapshots.filter (fun s =>
    s.hotelId == hotelId && s.processed &&
    s.processingStatus == ProcStatus.COMPLETED && !s.isSeedSnapshot))).head?

/-! ## Convenience projections over the store -/

/-- Processing status of a snapshot id. -/
def statusOf (db : DB) (snapshotId : Nat) : Option ProcStatus :=
  (db.snapshots.find? (fun s => s.id == snapshotId)).map (·.processingStatus)

/-- Stored error text of a snapshot id (inner layer: the nullable column). -/
def errorTextOf (db : DB) (snapshotId : Nat) : Option (Option (List Char)) :=
  (db.snapshots.find? (fun s => s.id == snapshotId)).map (·.processingError)

/-- The stored rows belonging to a snapshot id. -/
def rowsOf (db : DB) (snapshotId : Nat) : List DataRow :=
  db.rows.filter (fun r => r.snapshotId == snapshotId)

/-! ## Concrete fixtures used by the closed theorems below -/

/-- The empty store. -/
def emptyDB : DB := { snapshots := [], rows := [], nextSnapshotId := 0, nextRowId := 0 }

/-- A configured active hotel with 120 available rooms. -/
def sampleHotel : Hotel :=
  { id := 1, name := "Grand".data, email := "grand@mail.test".data,
    totalAvailableRooms := 120, isActive := true }

/-- One source line: placeholder column 0, then 30 columns whose key cells
hold a History row for 01/11/25 with 45 room nights and 12500.00 revenue. -/
def sampleLine : List Char :=
  ("x\tHistory\t01/11/25 Sat\t45\tc4\tc5\tc6\tc7\tc8\tc9\t12500.00\tc11\tc12\tc13\tc14\t2" ++
   "\tc16\tc17\tc18\tc19\tc20\tc21\tc22\tc23\tc24\tc25\tc26\tc27\tc28\tc29\tc30").data

/-- A .txt mail attachment carrying that line, named with an embedded Unix
timestamp. -/
def sampleAttachment : AttachmentInput :=
  { name := "history_forecast1700000000.txt".data, contentBytes := sampleLine }

/-- A PENDING snapshot as phase 1 leaves it, and a store holding only it. -/
def pendingSnap : Snapshot :=
  { id := 5, hotelId := 1, snapshotTime := 0, originalFilename := "f.txt".data,
    blobUrl := "b".data, fileHash := "f".data, totalAvailableRoomsSnapshot := 100,
    isSeedSnapshot := false, processed := false, processingStatus := .PENDING,
    processingError := none, rowCount := none }

def pendingDB : DB :=
  { snapshots := [pendingSnap], rows := [], nextSnapshotId := 6, nextRowId := 0 }

/-! ## C1 -/

set_option maxRecDepth 8000 in
/-- C1: the claim states that an ingestion cycle that brings a non-seed
snapshot to COMPLETED with at least one HISTORY row among its parsed rows
invokes the Seed Overlay. Evaluating the attachment pipeline at such an
input: the snapshot ends COMPLETED and non-seed, a HISTORY row is stored,
and the trace of service calls contains no updateSeedActualsWithHistory
call — the orchestrator never invokes the overlay. -/
theorem c1_cycle_never_invokes_seed_overlay :
    ((processAttachment emptyDB sampleHotel sampleAttachment 0 none).1.snapshots.map
      (fun s => (s.processingStatus, s.isSeedSnapshot)) =
        [(ProcStatus.COMPLETED, false)]) ∧
    ((processAttachment emptyDB sampleHotel sampleAttachment 0 none).1.rows.any
      (fun r => r.dataType == DataType.HISTORY) = true) ∧
    SvcCall.updateSeedActualsWithHistory ∉
      (processAttachment emptyDB sampleHotel sampleAttachment 0 none).2.2 := by
  decide

/-! ## C2 -/

/-- C2 counterexample: the claim states that the registrar's commit
operation itself does not set the snapshot's status to FAILED on rollback.
At a concrete failing phase-2 commit, saveSnapshotData alone — with no
caller step — already leaves the snapshot FAILED with the diagnostic text
attached, and rethrows the error. -/
theorem c2_counterexample_registrar_sets_failed :
    ((saveSnapshotData pendingDB 5 [] (some "boom".data)).2 = some "boom".data) ∧
    (statusOf (saveSnapshotData pendingDB 5 [] (some "boom".data)).1 5 =
      some ProcStatus.FAILED) ∧
    (errorTextOf (saveSnapshotData pendingDB 5 [] (some "boom".data)).1 5 =
      some (some "boom".data)) := by
  decide

/-! ## C6 -/

/-- Two completed snapshots of the same hotel with identical snapshot times
but different forecast figures for the same stay date. -/
def twinSnapA : Snapshot :=
  { id := 10, hotelId := 1, snapshotTime := 100, originalFilename := "a".data,
    blobUrl := "a".data, fileHash := "ha".data, totalAvailableRoomsSnapshot := 120,
    isSeedSnapshot := false, processed := true, processingStatus := .COMPLETED,
    processingError := none, rowCount := some 1 }

def twinSnapB : Snapshot :=
  { id := 11, hotelId := 1, snapshotTime := 100, originalFilename := "b".data,
    blobUrl := "b".data, fileHash := "hb".data, totalAvailableRoomsSnapshot := 120,
    isSeedSnapshot := false, processed := true, processingStatus := .COMPLETED,
    processingError := none, rowCount := some 1 }

def twinRowA : DataRow :=
  { id := 100, snapshotId := 10, hotelId := 1, stayDate := ⟨2025, 11, 1⟩,
    dataType := .FORECAST, cols := [], roomNights := 30, roomRevenue := 6000,
    ooRooms := 0, occupancyPercent := 25, adr := 200, revPAR := 50, rowIndex := 0 }

def twinRowB : DataRow :=
  { id := 101, snapshotId := 11, hotelId := 1, stayDate := ⟨2025, 11, 1⟩,
    dataType := .FORECAST, cols := [], roomNights := 38, roomRevenue := 9500,
    ooRooms := 0, occupancyPercent := 31, adr := 250, revPAR := 79, rowIndex := 0 }

def twinDB : DB :=
  { snapshots := [twinSnapA, twinSnapB], rows := [twinRowA, twinRowB],
    nextSnapshotId := 12, nextRowId := 102 }

/-- The rooms-pickup value of the first daily entry of a daily-pickup
response, when present. -/
def dailyPuRoomsHead : EndpointResult (Nat × Nat × List DailyEntry) → Option ℚ
  | .ok (_, _, e :: _) => some e.puRooms.value
  | _ => none

set_option maxRecDepth 8000 in
/-- C6 counterexample: the claim states that swapping the two supplied
snapshot ids changes neither the baseline/current assignment nor the sign of
any pickup delta. With two snapshots that share the same snapshot time, the
route swaps only on a strictly newer snapshot1, so the supplied order is
kept: the rooms pickup of the single stay date flips from +8 to -8 and the
selected ordered pair differs between the two argument orders. -/
theorem c6_counterexample_equal_times_flip_sign :
    dailyPuRoomsHead (dailyPickupEndpoint twinDB 1 ⟨some 10, some 11⟩) = some 8 ∧
    dailyPuRoomsHead (dailyPickupEndpoint twinDB 1 ⟨some 11, some 10⟩) = some (-8) ∧
    selectPickupSnapshots twinDB 1 ⟨some 10, some 11⟩ ≠
      selectPickupSnapshots twinDB 1 ⟨some 11, some 10⟩ := by
  refine ⟨by with_unfolding_all rfl, by with_unfolding_all rfl, by decide⟩

/-! ## C7 -/

/-- A completed non-seed snapshot 6 days before the one-year point. -/
def stlyEarlySnap : Snapshot :=
  { id := 2, hotelId := 1, snapshotTime := -6 * msPerDay,
    originalFilename := "e".data, blobUrl := "e".data, fileHash := "he".data,
    totalAvailableRoomsSnapshot := 120, isSeedSnapshot := false,
    processed := true, processingStatus := .COMPLETED,
    processingError := none, rowCount := some 0 }

/-- A completed non-seed snapshot 1 day after the one-year point — strictly
nearer to it. -/
def stlyNearSnap : Snapshot :=
  { id := 3, hotelId := 1, snapshotTime := 1 * msPerDay,
    originalFilename := "n".data, blobUrl := "n".data, fileHash := "hn".data,
    totalAvailableRoomsSnapshot := 120, isSeedSnapshot := false,
    processed := true, processingStatus := .COMPLETED,
    processingError := none, rowCount := some 0 }

def stlyDB : DB :=
  { snapshots := [stlyNearSnap, stlyEarlySnap], rows := [],
    nextSnapshotId := 4, nextRowId := 0 }

/-- C7: the claim (and the route's own comment) says the STLY baseline is
the snapshot nearest to the one-year point within the window, but the route
orders ascending and takes the head, i.e. the earliest one. At a window
(around lastYearDate 0) holding snapshots 6 days before and 1 day after the
point, the route picks the one 6 days away although the other is in the
window and strictly nearer. -/
theorem c7_stly_picks_earliest_not_nearest :
    ((stlySnapshotChoice stlyDB 1 0).map (·.id) = some 2) ∧
    stlyNearSnap ∈ stlyWindow stlyDB 1 0 ∧
    ((0 - stlyNearSnap.snapshotTime).natAbs < (0 - stlyEarlySnap.snapshotTime).natAbs) := by
  decide

/-! ## C8 -/

/-- C8 counterexample: the claim quantifies over all calendar-valid DD/MM/YY
strings from 01/01/00 on, but parseStayDate converts each component with
Number() and rejects falsy results, so year component "00" (value 0) is
treated as missing: parsing the calendar-valid in-range string 01/01/00 —
which is exactly the DD/MM/YY rendering of 2000-01-01 — throws instead of
succeeding. -/
theorem c8_counterexample_year_zero_rejected :
    parseStayDate "01/01/00".data = none ∧
    formatDDMMYY ⟨2000, 1, 1⟩ = "01/01/00".data ∧
    1 ≤ daysInMonth 2000 1 := by
  decide

/-! ## C3 -/

/-- A successful validateRow requires at least 30 columns. -/
theorem validateRow_length {cols : List (List Char)} (h : validateRow cols = true) :
    30 ≤ cols.length := by
  unfold validateRow at h
  by_cases hl : cols.length < 30
  · simp [hl] at h
  · omega

/-- C3: for every input line, the parser splits on tab and discards the
first column; a row candidate is produced only if at least 30 columns remain
after the discard, and any line with fewer remaining columns yields no row. -/
theorem c3_min_columns_after_discard (line : List Char) (rowIndex : Nat)
    (totalAvailableRooms : ℚ) :
    ((parseLine line rowIndex totalAvailableRooms).isSome = true →
      30 ≤ ((splitCh '\t' line).drop 1).length) ∧
    (((splitCh '\t' line).drop 1).length < 30 →
      parseLine line rowIndex totalAvailableRooms = none) := by
  constructor
  · intro h
    by_cases hv : validateRow ((splitCh '\t' line).drop 1) = true
    · exact validateRow_length hv
    · unfold parseLine at h
      rw [if_neg hv] at h
      simp at h
  · intro hlt
    have hv : ¬ validateRow ((splitCh '\t' line).drop 1) = true := by
      unfold validateRow
      rw [if_pos hlt]
      exact Bool.false_ne_true
    unfold parseLine
    rw [if_neg hv]

/-- A line whose tab-split leaves only two columns after the discard. -/
def shortSampleLine : List Char := "x\tHistory\t01/11/25".data

/-- Witness for C3 at concrete inputs: the 31-field sample line has at least
30 columns after the discard (and indeed parses), while the short line is
dropped. -/
theorem c3_min_columns_after_discard_witness :
    30 ≤ ((splitCh '\t' sampleLine).drop 1).length ∧
    parseLine shortSampleLine 0 120 = none :=
  ⟨(c3_min_columns_after_discard sampleLine 0 120).1 (by decide),
   (c3_min_columns_after_discard shortSampleLine 0 120).2 (by decide)⟩

/-! ## Status bookkeeping lemmas for the registrar -/

/-- find? only depends on the pointwise values of its predicate. -/
theorem find?_congr_loc {α : Type} {p q : α → Bool} (l : List α) (h : ∀ a, p a = q a) :
    l.find? p = l.find? q := by
  induction l with
  | nil => rfl
  | cons a t ih =>
    by_cases hp : p a = true
    · rw [List.find?_cons_of_pos _ hp, List.find?_cons_of_pos _ (by rw [← h a]; exact hp)]
    · rw [List.find?_cons_of_neg _ hp, List.find?_cons_of_neg _ (by rw [← h a]; exact hp), ih]

/-- Updating the snapshots keyed by id commutes with looking the id up:
the lookup of the mapped list returns the updated image of the original
lookup (the FAILED update of markSnapshotFailed). -/
theorem find?_map_failed (l : List Snapshot) (snapshotId : Nat) (m : List Char) :
    (l.map (fun s =>
      if s.id == snapshotId then
        { s with processingStatus := ProcStatus.FAILED, processingError := some m }
      else s)).find? (fun s => s.id == snapshotId) =
    (l.find? (fun s => s.id == snapshotId)).map (fun s =>
      { s with processingStatus := ProcStatus.FAILED, processingError := some m }) := by
  rw [List.find?_map]
  have hc : ∀ s : Snapshot,
      ((fun x => x.id == snapshotId) ∘ (fun s =>
        if s.id == snapshotId then
          { s with processingStatus := ProcStatus.FAILED, processingError := some m }
        else s)) s = (s.id == snapshotId) := by
    intro s
    by_cases h : (s.id == snapshotId) = true
    · simp only [Function.comp_apply, if_pos h]
    · simp only [Function.comp_apply, if_neg h]
  rw [find?_congr_loc _ hc]
  cases hfind : List.find? (fun s => s.id == snapshotId) l with
  | none => rfl
  | some s =>
    have hp := List.find?_some hfind
    simp only [Option.map_some']
    rw [if_pos hp]

/-- Effect of markSnapshotFailed on the snapshot it targets. -/
theorem markSnapshotFailed_found (db : DB) (snapshotId : Nat) (m : List Char)
    (s : Snapshot)
    (hfind : db.snapshots.find? (fun x => x.id == snapshotId) = some s) :
    (markSnapshotFailed db snapshotId m).snapshots.find? (fun x => x.id == snapshotId) =
      some { s with processingStatus := ProcStatus.FAILED, processingError := some m } := by
  unfold markSnapshotFailed
  simp only [find?_map_failed, hfind]
  rfl

/-! ## C2 (amended) -/

/-- C2 amended: when the phase-2 transaction fails and rolls back,
saveSnapshotData itself marks the snapshot FAILED with the diagnostic text —
outside the failed transaction's scope — and rethrows that message; the
caller then marks the snapshot FAILED once more with the rethrown message.
So the FAILED flip is performed by the registrar first, and again by the
caller, not by the caller alone as the claim states. -/
theorem c2_amended_registrar_marks_failed_then_caller (db : DB) (snapshotId : Nat)
    (rows : List ParsedRow) (fault : Option (List Char)) (s : Snapshot)
    (callerMsg : List Char)
    (hfind : db.snapshots.find? (fun x => x.id == snapshotId) = some s)
    (hfail : (fault.isSome || insertConflict db snapshotId rows) = true) :
    (saveSnapshotData db snapshotId rows fault).2 = some (fault.getD constraintMsg) ∧
    statusOf (saveSnapshotData db snapshotId rows fault).1 snapshotId =
      some ProcStatus.FAILED ∧
    errorTextOf (saveSnapshotData db snapshotId rows fault).1 snapshotId =
      some (some (fault.getD constraintMsg)) ∧
    statusOf (markSnapshotFailed (saveSnapshotData db snapshotId rows fault).1
        snapshotId callerMsg) snapshotId = some ProcStatus.FAILED ∧
    errorTextOf (markSnapshotFailed (saveSnapshotData db snapshotId rows fault).1
        snapshotId callerMsg) snapshotId = some (some callerMsg) := by
  have hsave : saveSnapshotData db snapshotId rows fault =
      (markSnapshotFailed db snapshotId (fault.getD constraintMsg),
       some (fault.getD constraintMsg)) := by
    unfold saveSnapshotData
    rw [hfind]
    simp only [hfail, if_pos]
  rw [hsave]
  have h1 := markSnapshotFailed_found db snapshotId (fault.getD constraintMsg) s hfind
  have h2 := markSnapshotFailed_found (markSnapshotFailed db snapshotId
    (fault.getD constraintMsg)) snapshotId callerMsg _ h1
  unfold statusOf errorTextOf
  rw [h1, h2]
  simp

/-- Witness for C2's amended theorem at a concrete failing commit. -/
theorem c2_amended_registrar_marks_failed_then_caller_witness :
    (saveSnapshotData pendingDB 5 [] (some "boom".data)).2 =
      some ((some "boom".data).getD constraintMsg) ∧
    statusOf (saveSnapshotData pendingDB 5 [] (some "boom".data)).1 5 =
      some ProcStatus.FAILED ∧
    errorTextOf (saveSnapshotData pendingDB 5 [] (some "boom".data)).1 5 =
      some (some ((some "boom".data).getD constraintMsg)) ∧
    statusOf (markSnapshotFailed (saveSnapshotData pendingDB 5 [] (some "boom".data)).1
        5 "caller".data) 5 = some ProcStatus.FAILED ∧
    errorTextOf (markSnapshotFailed (saveSnapshotData pendingDB 5 [] (some "boom".data)).1
        5 "caller".data) 5 = some (some "caller".data) :=
  c2_amended_registrar_marks_failed_then_caller pendingDB 5 [] (some "boom".data)
    pendingSnap "caller".data (by decide) (by decide)

/-! ## C4 -/

/-- C4: a snapshot whose phase-2 commit fails (in particular before any row
insert takes effect — the rolled-back transaction keeps no partial rows)
ends FAILED, with the rethrown diagnostic stored; given that phase 1 left no
rows for the id and the diagnostic is non-empty, the snapshot ends FAILED
with non-empty stored error text and zero stored rows for its id. -/
theorem c4_failed_commit_leaves_failed_and_no_rows (db : DB) (snapshotId : Nat)
    (rows : List ParsedRow) (fault : Option (List Char)) (s : Snapshot)
    (hfind : db.snapshots.find? (fun x => x.id == snapshotId) = some s)
    (hnorows : rowsOf db snapshotId = [])
    (hfail : (fault.isSome || insertConflict db snapshotId rows) = true)
    (hmsg : fault.getD constraintMsg ≠ []) :
    statusOf (saveSnapshotData db snapshotId rows fault).1 snapshotId =
      some ProcStatus.FAILED ∧
    errorTextOf (saveSnapshotData db snapshotId rows fault).1 snapshotId =
      some (some (fault.getD constraintMsg)) ∧
    fault.getD constraintMsg ≠ [] ∧
    rowsOf (saveSnapshotData db snapshotId rows fault).1 snapshotId = [] := by
  have hsave : saveSnapshotData db snapshotId rows fault =
      (markSnapshotFailed db snapshotId (fault.getD constraintMsg),
       some (fault.getD constraintMsg)) := by
    unfold saveSnapshotData
    rw [hfind]
    simp only [hfail, if_pos]
  rw [hsave]
  have h1 := markSnapshotFailed_found db snapshotId (fault.getD constraintMsg) s hfind
  refine ⟨?_, ?_, hmsg, ?_⟩
  · unfold statusOf
    rw [h1]
    rfl
  · unfold errorTextOf
    rw [h1]
    rfl
  · unfold rowsOf at hnorows ⊢
    unfold markSnapshotFailed
    exact hnorows

/-- Witness for C4 at a concrete failing commit with a non-empty message. -/
theorem c4_failed_commit_leaves_failed_and_no_rows_witness :
    statusOf (saveSnapshotData pendingDB 5 [] (some "disk full".data)).1 5 =
      some ProcStatus.FAILED ∧
    errorTextOf (saveSnapshotData pendingDB 5 [] (some "disk full".data)).1 5 =
      some (some ((some "disk full".data).getD constraintMsg)) ∧
    (some "disk full".data).getD constraintMsg ≠ [] ∧
    rowsOf (saveSnapshotData pendingDB 5 [] (some "disk full".data)).1 5 = [] :=
  c4_failed_commit_leaves_failed_and_no_rows pendingDB 5 [] (some "disk full".data)
    pendingSnap (by decide) (by decide) (by decide) (by decide)

/-! ## C9 -/

/-- Pointwise congruence of List.map. -/
theorem map_congr_loc {α β : Type} (l : List α) {f g : α → β} (h : ∀ a, f a = g a) :
    l.map f = l.map g := by
  induction l with
  | nil => rfl
  | cons a t ih => simp only [List.map_cons, h a, ih]

/-- Two members of a list with no duplicate ids that share an id coincide. -/
theorem mem_id_unique {l : List DataRow} (h : (l.map (fun r => r.id)).Nodup)
    {a b : DataRow} (ha : a ∈ l) (hb : b ∈ l) (hid : a.id = b.id) : a = b := by
  induction l with
  | nil => cases ha
  | cons c t ih =>
    rw [List.map_cons, List.nodup_cons] at h
    rcases List.mem_cons.mp ha with rfl | hat
    · rcases List.mem_cons.mp hb with rfl | hbt
      · rfl
      · exact absurd (hid ▸ List.mem_map_of_mem (fun r => r.id) hbt) h.1
    · rcases List.mem_cons.mp hb with rfl | hbt
      · exact absurd (hid ▸ List.mem_map_of_mem (fun r => r.id) hat) h.1
      · exact ih h.2 hat hbt

/-- The identity part of a stored row the overlay never writes: id, owning
snapshot, hotel, stay date, data type and source index. -/
def sameKey (r r' : DataRow) : Prop :=
  r'.id = r.id ∧ r'.snapshotId = r.snapshotId ∧ r'.hotelId = r.hotelId ∧
  r'.stayDate = r.stayDate ∧ r'.dataType = r.dataType ∧ r'.rowIndex = r.rowIndex

/-- One overlay iteration: the snapshots table is untouched, row ids are
unchanged position by position, and a row that changes at a position was a
row of the targeted seed snapshot with HISTORY type and the stay date of the
history row being applied. -/
theorem applyHistoryRow_frame (seedId : Nat) (db : DB) (hr : ParsedRow)
    (hids : (db.rows.map (fun r => r.id)).Nodup) :
    (applyHistoryRow seedId db hr).snapshots = db.snapshots ∧
    (applyHistoryRow seedId db hr).rows.map (fun r => r.id) =
      db.rows.map (fun r => r.id) ∧
    ∀ (i : Nat) (r r' : DataRow), db.rows[i]? = some r →
      (applyHistoryRow seedId db hr).rows[i]? = some r' →
      sameKey r r' ∧
      (r' ≠ r → r.snapshotId = seedId ∧ r.dataType = DataType.HISTORY ∧
        r.stayDate = hr.stayDate) := by
  unfold applyHistoryRow
  cases hf : db.rows.find? (fun r =>
      r.snapshotId == seedId && r.stayDate == hr.stayDate &&
      r.dataType == DataType.HISTORY) with
  | none =>
    refine ⟨rfl, rfl, fun i r r' h1 h2 => ?_⟩
    rw [h1] at h2
    cases h2
    exact ⟨⟨rfl, rfl, rfl, rfl, rfl, rfl⟩, fun hne => absurd rfl hne⟩
  | some e =>
    have hpe := List.find?_some hf
    simp only [Bool.and_eq_true, beq_iff_eq] at hpe
    obtain ⟨⟨heSnap, heDate⟩, heType⟩ := hpe
    have hmem := List.mem_of_find?_eq_some hf
    refine ⟨rfl, ?_, ?_⟩
    · rw [List.map_map]
      refine map_congr_loc _ (fun a => ?_)
      by_cases h : (a.id == e.id) = true
      · simp only [Function.comp_apply, if_pos h]
        rfl
      · simp only [Function.comp_apply, if_neg h]
    · intro i r r' h1 h2
      rw [List.getElem?_map, h1] at h2
      simp only [Option.map_some'] at h2
      by_cases hid : (r.id == e.id) = true
      · rw [if_pos hid] at h2
        cases h2
        have hmemr : r ∈ db.rows := by
          rcases List.getElem?_eq_some_iff.mp h1 with ⟨hlt, hget⟩
          exact hget ▸ List.getElem_mem hlt
        have hre : r = e := mem_id_unique hids hmemr hmem (by simpa using hid)
        subst hre
        exact ⟨⟨rfl, rfl, rfl, rfl, rfl, rfl⟩,
          fun _ => ⟨heSnap, heType, heDate⟩⟩
      · rw [if_neg hid] at h2
        cases h2
        exact ⟨⟨rfl, rfl, rfl, rfl, rfl, rfl⟩, fun hne => absurd rfl hne⟩

/-- The overlay loop, folded over a list of history rows: same frame as one
iteration, with the changed stay date coming from one of the applied rows. -/
theorem foldl_applyHistoryRow_frame (seedId : Nat) (hrs : List ParsedRow) :
    ∀ (db : DB), (db.rows.map (fun r => r.id)).Nodup →
    (hrs.foldl (applyHistoryRow seedId) db).snapshots = db.snapshots ∧
    (hrs.foldl (applyHistoryRow seedId) db).rows.map (fun r => r.id) =
      db.rows.map (fun r => r.id) ∧
    ∀ (i : Nat) (r r' : DataRow), db.rows[i]? = some r →
      (hrs.foldl (applyHistoryRow seedId) db).rows[i]? = some r' →
      sameKey r r' ∧
      (r' ≠ r → r.snapshotId = seedId ∧ r.dataType = DataType.HISTORY ∧
        ∃ hr ∈ hrs, r.stayDate = hr.stayDate) := by
  induction hrs with
  | nil =>
    intro db _
    refine ⟨rfl, rfl, fun i r r' h1 h2 => ?_⟩
    rw [List.foldl_nil, h1] at h2
    cases h2
    exact ⟨⟨rfl, rfl, rfl, rfl, rfl, rfl⟩, fun hne => absurd rfl hne⟩
  | cons hr hrs ih =>
    intro db hids
    obtain ⟨hsnap1, hid1, hpt1⟩ := applyHistoryRow_frame seedId db hr hids
    have hids1 : ((applyHistoryRow seedId db hr).rows.map (fun r => r.id)).Nodup := by
      rw [hid1]
      exact hids
    obtain ⟨hsnap2, hid2, hpt2⟩ := ih (applyHistoryRow seedId db hr) hids1
    refine ⟨hsnap2.trans hsnap1, hid2.trans hid1, fun i r r' h1 h2 => ?_⟩
    have hlen1 : (applyHistoryRow seedId db hr).rows.length = db.rows.length := by
      have := congrArg List.length hid1
      simpa using this
    have hlt : i < db.rows.length := (List.getElem?_eq_some_iff.mp h1).1
    obtain ⟨rm, h1m⟩ : ∃ rm, (applyHistoryRow seedId db hr).rows[i]? = some rm :=
      ⟨_, List.getElem?_eq_getElem (hlen1 ▸ hlt)⟩
    obtain ⟨hk1, hc1⟩ := hpt1 i r rm h1 h1m
    obtain ⟨hk2, hc2⟩ := hpt2 i rm r' h1m h2
    obtain ⟨ha1, ha2, ha3, ha4, ha5, ha6⟩ := hk1
    obtain ⟨hb1, hb2, hb3, hb4, hb5, hb6⟩ := hk2
    refine ⟨⟨hb1.trans ha1, hb2.trans ha2, hb3.trans ha3, hb4.trans ha4,
      hb5.trans ha5, hb6.trans ha6⟩, fun hne => ?_⟩
    by_cases hmid : rm = r
    · have hne2 : r' ≠ rm := by
        rw [hmid]
        exact hne
      obtain ⟨hs, ht, hx, hxm, hxd⟩ := hc2 hne2
      rw [hmid] at hs ht hxd
      exact ⟨hs, ht, hx, List.mem_cons_of_mem _ hxm, hxd⟩
    · obtain ⟨hs, ht, hd⟩ := hc1 hmid
      exact ⟨hs, ht, hr, List.mem_cons_self _ _, hd⟩

/-- C9: one overlay application leaves the snapshots table unchanged and
never inserts a row; position by position every stored row keeps its id,
owning snapshot, hotel, stay date, data type and row index, and a row whose
stored payload changes belonged to the located seed snapshot, had HISTORY
type, and had the stay date of one of the final 7 HISTORY rows (by source
order) of the applied rows — so rows of every other snapshot, and seed rows
for stay dates outside those 7, are untouched. -/
theorem c9_overlay_updates_only_matching_seed_rows (db : DB) (hotelId : Nat)
    (historyRows : List ParsedRow)
    (hids : (db.rows.map (fun r => r.id)).Nodup) :
    (updateSeedActualsWithHistory db hotelId historyRows).snapshots = db.snapshots ∧
    (updateSeedActualsWithHistory db hotelId historyRows).rows.length =
      db.rows.length ∧
    ∀ (i : Nat) (r r' : DataRow), db.rows[i]? = some r →
      (updateSeedActualsWithHistory db hotelId historyRows).rows[i]? = some r' →
      sameKey r r' ∧
      (r' ≠ r → ∃ seed, findSeedSnapshot db hotelId = some seed ∧
        r.snapshotId = seed.id ∧ r.dataType = DataType.HISTORY ∧
        ∃ hr ∈ takeLast 7 (historyRows.filter (fun x => x.dataType == DataType.HISTORY)),
          r.stayDate = hr.stayDate) := by
  unfold updateSeedActualsWithHistory
  cases hs : findSeedSnapshot db hotelId with
  | none =>
    refine ⟨rfl, rfl, fun i r r' h1 h2 => ?_⟩
    rw [h1] at h2
    cases h2
    exact ⟨⟨rfl, rfl, rfl, rfl, rfl, rfl⟩, fun hne => absurd rfl hne⟩
  | some seed =>
    obtain ⟨hsnap, hidm, hpt⟩ := foldl_applyHistoryRow_frame seed.id
      (takeLast 7 (historyRows.filter (fun x => x.dataType == DataType.HISTORY))) db hids
    refine ⟨hsnap, ?_, fun i r r' h1 h2 => ?_⟩
    · have := congrArg List.length hidm
      simpa using this
    · obtain ⟨hk, hc⟩ := hpt i r r' h1 h2
      exact ⟨hk, fun hne => ⟨seed, rfl, hc hne⟩⟩

/-- A one-row seed snapshot store on which the overlay rewrites exactly the
matching seed HISTORY row, used to witness C9 concretely. -/
def seedSnapW : Snapshot :=
  { id := 20, hotelId := 1, snapshotTime := 0, originalFilename := "seed.txt".data,
    blobUrl := "s".data, fileHash := "hs".data, totalAvailableRoomsSnapshot := 120,
    isSeedSnapshot := true, processed := true, processingStatus := .COMPLETED,
    processingError := none, rowCount := some 1 }

def seedRowW : DataRow :=
  { id := 200, snapshotId := 20, hotelId := 1, stayDate := ⟨2025, 11, 1⟩,
    dataType := .HISTORY, cols := [], roomNights := 10, roomRevenue := 1000,
    ooRooms := 0, occupancyPercent := 8, adr := 100, revPAR := 8, rowIndex := 0 }

def seedDBW : DB :=
  { snapshots := [seedSnapW], rows := [seedRowW], nextSnapshotId := 21, nextRowId := 201 }

def overlayRowW : ParsedRow :=
  { dataType := .HISTORY, stayDate := ⟨2025, 11, 1⟩, cols := [['n']],
    roomNights := 45, roomRevenue := 12500, ooRooms := 2, occupancyPercent := 37,
    adr := 277, revPAR := 104, rowIndex := 3 }

/-- Witness for C9 at a concrete store where the overlay rewrites the single
matching seed row. -/
theorem c9_overlay_updates_only_matching_seed_rows_witness :
    (updateSeedActualsWithHistory seedDBW 1 [overlayRowW]).snapshots =
      seedDBW.snapshots ∧
    (updateSeedActualsWithHistory seedDBW 1 [overlayRowW]).rows.length =
      seedDBW.rows.length ∧
    ∀ (i : Nat) (r r' : DataRow), seedDBW.rows[i]? = some r →
      (updateSeedActualsWithHistory seedDBW 1 [overlayRowW]).rows[i]? = some r' →
      sameKey r r' ∧
      (r' ≠ r → ∃ seed, findSeedSnapshot seedDBW 1 = some seed ∧
        r.snapshotId = seed.id ∧ r.dataType = DataType.HISTORY ∧
        ∃ hr ∈ takeLast 7 ([overlayRowW].filter (fun x => x.dataType == DataType.HISTORY)),
          r.stayDate = hr.stayDate) :=
  c9_overlay_updates_only_matching_seed_rows seedDBW 1 [overlayRowW] (by decide)

/-! ## C5 -/

/-- Mapping a fileHash-preserving update over the snapshots keeps the
presence of any content hash. -/
theorem hashMem_map (l : List Snapshot) (h : List Char) (f : Snapshot → Snapshot)
    (hf : ∀ s, (f s).fileHash = s.fileHash)
    (hex : ∃ s ∈ l, s.fileHash = h) : ∃ s ∈ l.map f, s.fileHash = h := by
  obtain ⟨s, hm, hh⟩ := hex
  exact ⟨f s, List.mem_map_of_mem f hm, (hf s).trans hh⟩

/-- markSnapshotFailed touches only status and error text, so every content
hash present before is present after. -/
theorem hashMem_markSnapshotFailed (db : DB) (snapshotId : Nat) (m h : List Char)
    (hex : ∃ s ∈ db.snapshots, s.fileHash = h) :
    ∃ s ∈ (markSnapshotFailed db snapshotId m).snapshots, s.fileHash = h := by
  unfold markSnapshotFailed
  refine hashMem_map _ _ _ (fun s => ?_) hex
  by_cases hc : (s.id == snapshotId) = true
  · rw [if_pos hc]
  · rw [if_neg hc]

/-- saveSnapshotData never changes any snapshot's content hash, in any of
its branches, so every content hash present before is present after. -/
theorem hashMem_saveSnapshotData (db : DB) (snapshotId : Nat)
    (rows : List ParsedRow) (fault : Option (List Char)) (h : List Char)
    (hex : ∃ s ∈ db.snapshots, s.fileHash = h) :
    ∃ s ∈ (saveSnapshotData db snapshotId rows fault).1.snapshots, s.fileHash = h := by
  unfold saveSnapshotData
  cases hf : db.snapshots.find? (fun s => s.id == snapshotId) with
  | none => exact hex
  | some snapshot =>
    dsimp only
    by_cases hc : (fault.isSome || insertConflict db snapshotId rows) = true
    · rw [if_pos hc]
      exact hashMem_markSnapshotFailed db snapshotId _ h hex
    · rw [if_neg hc]
      refine hashMem_map _ _ _ (fun s => ?_) hex
      by_cases hs : (s.id == snapshotId) = true
      · rw [if_pos hs]
      · rw [if_neg hs]

/-- A non-skipped .txt attachment leaves a snapshot carrying its content
hash in the store: phase 1 registers the hash before parsing, and neither
phase 2 nor the failure path removes or alters it. -/
theorem processAttachment_records_hash (db : DB) (hotel : Hotel)
    (att : AttachmentInput) (now : Int) (fault : Option (List Char))
    (htxt : endsWithTxt att.name = true)
    (hnodup : checkDuplicateByHash db (calculateFileHash att.contentBytes) = none) :
    ∃ s ∈ (processAttachment db hotel att now fault).1.snapshots,
      s.fileHash = calculateFileHash att.contentBytes := by
  unfold processAttachment
  rw [if_neg (not_not_intro htxt)]
  dsimp only
  rw [hnodup]
  dsimp only
  have hbase : ∃ s ∈ (createSnapshotRecord db hotel.id
      (extractSnapshotTime att.name now) att.name att.name
      (calculateFileHash att.contentBytes) hotel.totalAvailableRooms false).1.snapshots,
      s.fileHash = calculateFileHash att.contentBytes := by
    refine ⟨_, List.mem_append_right _ (List.mem_singleton_self _), rfl⟩
  have hsaved := hashMem_saveSnapshotData
    (createSnapshotRecord db hotel.id (extractSnapshotTime att.name now) att.name
      att.name (calculateFileHash att.contentBytes) hotel.totalAvailableRooms false).1
    (createSnapshotRecord db hotel.id (extractSnapshotTime att.name now) att.name
      att.name (calculateFileHash att.contentBytes) hotel.totalAvailableRooms false).2.id
    (parseHistoryForecastFile att.contentBytes hotel.totalAvailableRooms) fault
    (calculateFileHash att.contentBytes) hbase
  cases hsv : (saveSnapshotData
      (createSnapshotRecord db hotel.id (extractSnapshotTime att.name now) att.name
        att.name (calculateFileHash att.contentBytes) hotel.totalAvailableRooms false).1
      (createSnapshotRecord db hotel.id (extractSnapshotTime att.name now) att.name
        att.name (calculateFileHash att.contentBytes) hotel.totalAvailableRooms false).2.id
      (parseHistoryForecastFile att.contentBytes hotel.totalAvailableRooms) fault).2 with
  | some m =>
    dsimp only
    exact hashMem_markSnapshotFailed _ _ _ _ hsaved
  | none =>
    dsimp only
    exact hsaved

/-- A store containing a snapshot with a given content hash makes the
pipeline skip any .txt attachment with that content, unchanged. -/
theorem processAttachment_skips_known_hash (db : DB) (hotel : Hotel)
    (att : AttachmentInput) (now : Int) (fault : Option (List Char))
    (htxt : endsWithTxt att.name = true)
    (hex : ∃ s ∈ db.snapshots, s.fileHash = calculateFileHash att.contentBytes) :
    processAttachment db hotel att now fault =
      (db, Outcome.skippedDuplicate, [SvcCall.checkDuplicateByHash]) := by
  unfold processAttachment
  rw [if_neg (not_not_intro htxt)]
  dsimp only
  have hsome : ((db.snapshots.find? (fun s =>
      s.fileHash == calculateFileHash att.contentBytes)).isSome) = true := by
    refine List.find?_isSome.mpr ?_
    obtain ⟨s, hm, hh⟩ := hex
    exact ⟨s, hm, by simp [hh]⟩
  obtain ⟨t, ht⟩ := Option.isSome_iff_exists.mp hsome
  unfold checkDuplicateByHash
  rw [ht]

/-- C5: for two submissions of byte-identical content, if the first one was
not itself skipped as a duplicate, then the second — for any owning hotel
and any .txt filename — is detected by content hash before phase 1 (its
trace holds only the duplicate check), is skipped, and leaves the store
exactly as the first submission left it: no new Snapshot, no new rows. -/
theorem c5_second_identical_submission_skipped (db : DB) (hotelA hotelB : Hotel)
    (attA attB : AttachmentInput) (nowA nowB : Int)
    (faultA faultB : Option (List Char))
    (hbytes : attB.contentBytes = attA.contentBytes)
    (htxtA : endsWithTxt attA.name = true)
    (htxtB : endsWithTxt attB.name = true)
    (hfirst : (processAttachment db hotelA attA nowA faultA).2.1 ≠
      Outcome.skippedDuplicate) :
    processAttachment (processAttachment db hotelA attA nowA faultA).1 hotelB attB
        nowB faultB =
      ((processAttachment db hotelA attA nowA faultA).1, Outcome.skippedDuplicate,
       [SvcCall.checkDuplicateByHash]) := by
  have hhash : ∃ s ∈ (processAttachment db hotelA attA nowA faultA).1.snapshots,
      s.fileHash = calculateFileHash attA.contentBytes := by
    cases hdup : checkDuplicateByHash db (calculateFileHash attA.contentBytes) with
    | some s0 =>
      exfalso
      apply hfirst
      unfold processAttachment
      rw [if_neg (not_not_intro htxtA)]
      dsimp only
      rw [hdup]
    | none => exact processAttachment_records_hash db hotelA attA nowA faultA htxtA hdup
  refine processAttachment_skips_known_hash _ hotelB attB nowB faultB htxtB ?_
  rw [show calculateFileHash attB.contentBytes = calculateFileHash attA.contentBytes
    from congrArg calculateFileHash hbytes]
  exact hhash

set_option maxRecDepth 8000 in
/-- A byte-identical resubmission of the sample attachment under another
hotel and filename: witness for C5 at concrete inputs. -/
theorem c5_second_identical_submission_skipped_witness :
    processAttachment (processAttachment emptyDB sampleHotel sampleAttachment 0 none).1
        { id := 2, name := "Other".data, email := "other@mail.test".data,
          totalAvailableRooms := 50, isActive := true }
        { name := "renamed.TXT".data, contentBytes := sampleLine } 77 none =
      ((processAttachment emptyDB sampleHotel sampleAttachment 0 none).1,
       Outcome.skippedDuplicate, [SvcCall.checkDuplicateByHash]) :=
  c5_second_identical_submission_skipped emptyDB sampleHotel
    { id := 2, name := "Other".data, email := "other@mail.test".data,
      totalAvailableRooms := 50, isActive := true }
    sampleAttachment
    { name := "renamed.TXT".data, contentBytes := sampleLine } 0 77 none none
    rfl (by decide) (by decide) (by decide)

/-! ## C6 (amended) -/

/-- The explicit-id selection prologue, evaluated at two found snapshots of
the requested hotel with distinct snapshot times: the earlier one is the
baseline, whatever the argument order. -/
theorem select_explicit_ordered (db : DB) (hotelId i j : Nat) (s1 s2 : Snapshot)
    (h1 : findUniqueSnapshot db i = some s1)
    (h2 : findUniqueSnapshot db j = some s2)
    (hh1 : s1.hotelId = hotelId) (hh2 : s2.hotelId = hotelId)
    (hne : s1.snapshotTime ≠ s2.snapshotTime) :
    selectPickupSnapshots db hotelId ⟨some i, some j⟩ =
      (if s1.snapshotTime < s2.snapshotTime then SelectResult.ok s1 s2
       else SelectResult.ok s2 s1) := by
  unfold selectPickupSnapshots
  dsimp only
  rw [h1, h2]
  dsimp only
  rw [if_neg (fun hor => hor.elim (fun ha => ha hh1) (fun hb => hb hh2))]
  rcases lt_trichotomy s1.snapshotTime s2.snapshotTime with hlt | heq | hgt
  · rw [if_neg (not_lt.mpr (le_of_lt hlt)), if_pos hlt]
  · exact absurd heq hne
  · rw [if_pos hgt, if_neg (not_lt.mpr (le_of_lt hgt))]

/-- C6 amended: when the two supplied snapshots have distinct snapshot
times, both pickup endpoints are invariant under swapping the two ids, and
the selection takes the chronologically earlier snapshot as the baseline. -/
theorem c6_swap_invariant_for_distinct_times (db : DB) (today : CalDate)
    (hotelId i j : Nat) (s1 s2 : Snapshot)
    (h1 : findUniqueSnapshot db i = some s1)
    (h2 : findUniqueSnapshot db j = some s2)
    (hh1 : s1.hotelId = hotelId) (hh2 : s2.hotelId = hotelId)
    (hne : s1.snapshotTime ≠ s2.snapshotTime) :
    pickupEndpoint db today hotelId ⟨some i, some j⟩ =
      pickupEndpoint db today hotelId ⟨some j, some i⟩ ∧
    dailyPickupEndpoint db hotelId ⟨some i, some j⟩ =
      dailyPickupEndpoint db hotelId ⟨some j, some i⟩ ∧
    selectPickupSnapshots db hotelId ⟨some i, some j⟩ =
      (if s1.snapshotTime < s2.snapshotTime then SelectResult.ok s1 s2
       else SelectResult.ok s2 s1) := by
  have hsel1 := select_explicit_ordered db hotelId i j s1 s2 h1 h2 hh1 hh2 hne
  have hsel2 := select_explicit_ordered db hotelId j i s2 s1 h2 h1 hh2 hh1
    (fun h => hne h.symm)
  have hsame : selectPickupSnapshots db hotelId ⟨some i, some j⟩ =
      selectPickupSnapshots db hotelId ⟨some j, some i⟩ := by
    rw [hsel1, hsel2]
    rcases lt_trichotomy s1.snapshotTime s2.snapshotTime with hlt | heq | hgt
    · rw [if_pos hlt, if_neg (not_lt.mpr (le_of_lt hlt))]
    · exact absurd heq hne
    · rw [if_neg (not_lt.mpr (le_of_lt hgt)), if_pos hgt]
  refine ⟨?_, ?_, hsel1⟩
  · unfold pickupEndpoint
    rw [hsame]
  · unfold dailyPickupEndpoint
    rw [hsame]

/-- Two completed snapshots with distinct times for the C6 witness. -/
def distinctSnapA : Snapshot :=
  { twinSnapA with id := 30, snapshotTime := 0, fileHash := "hc".data }

def distinctSnapB : Snapshot :=
  { twinSnapB with id := 31, snapshotTime := 5, fileHash := "hd".data }

def distinctDB : DB :=
  { snapshots := [distinctSnapB, distinctSnapA], rows := [],
    nextSnapshotId := 32, nextRowId := 0 }

set_option maxRecDepth 8000 in
/-- Witness for C6's amended theorem at concrete distinct-time snapshots. -/
theorem c6_swap_invariant_for_distinct_times_witness :
    pickupEndpoint distinctDB ⟨2025, 11, 5⟩ 1 ⟨some 30, some 31⟩ =
      pickupEndpoint distinctDB ⟨2025, 11, 5⟩ 1 ⟨some 31, some 30⟩ ∧
    dailyPickupEndpoint distinctDB 1 ⟨some 30, some 31⟩ =
      dailyPickupEndpoint distinctDB 1 ⟨some 31, some 30⟩ ∧
    selectPickupSnapshots distinctDB 1 ⟨some 30, some 31⟩ =
      (if distinctSnapA.snapshotTime < distinctSnapB.snapshotTime then
        SelectResult.ok distinctSnapA distinctSnapB
       else SelectResult.ok distinctSnapB distinctSnapA) :=
  c6_swap_invariant_for_distinct_times distinctDB ⟨2025, 11, 5⟩ 1 30 31
    distinctSnapA distinctSnapB (by decide) (by decide) (by decide) (by decide)
    (by decide)

/-! ## C10 -/

/-- Membership is invariant under descending-time insertion. -/
theorem mem_insertDescByTime {x s : Snapshot} {l : List Snapshot} :
    x ∈ insertDescByTime s l ↔ x = s ∨ x ∈ l := by
  induction l with
  | nil => simp [insertDescByTime]
  | cons t ts ih =>
    unfold insertDescByTime
    by_cases hc : t.snapshotTime ≤ s.snapshotTime
    · rw [if_pos hc]
      simp
    · rw [if_neg hc]
      rw [List.mem_cons, ih, List.mem_cons]
      tauto

/-- Membership is invariant under the descending sort. -/
theorem mem_sortByTimeDesc {x : Snapshot} {l : List Snapshot} :
    x ∈ sortByTimeDesc l ↔ x ∈ l := by
  induction l with
  | nil => simp [sortByTimeDesc]
  | cons t ts ih =>
    unfold sortByTimeDesc at ih ⊢
    rw [List.foldr_cons, mem_insertDescByTime, ih, List.mem_cons]

/-- Every snapshot the default path returns satisfies the default-path
filter: owned by the hotel, processed, COMPLETED and not a seed snapshot. -/
theorem mem_latestTwoCompleted {x : Snapshot} {db : DB} {hotelId : Nat}
    (hx : x ∈ latestTwoCompleted db hotelId) :
    x.hotelId = hotelId ∧ x.processed = true ∧
    x.processingStatus = ProcStatus.COMPLETED ∧ x.isSeedSnapshot = false := by
  unfold latestTwoCompleted at hx
  have hx2 := List.mem_of_mem_take hx
  have hx3 := mem_sortByTimeDesc.mp hx2
  have hx4 := (List.mem_filter.mp hx3).2
  simp only [Bool.and_eq_true, beq_iff_eq, Bool.not_eq_true'] at hx4
  exact ⟨hx4.1.1.1, hx4.1.1.2, hx4.1.2, hx4.2⟩

/-- With both ids supplied, the selection succeeds iff both snapshots exist
and both belong to the hotel. -/
theorem select_explicit_ok_iff (db : DB) (hotelId i j : Nat) :
    (∃ a b, selectPickupSnapshots db hotelId ⟨some i, some j⟩ =
      SelectResult.ok a b) ↔
    ((∃ s, findUniqueSnapshot db i = some s ∧ s.hotelId = hotelId) ∧
     (∃ s, findUniqueSnapshot db j = some s ∧ s.hotelId = hotelId)) := by
  unfold selectPickupSnapshots
  dsimp only
  cases hfi : findUniqueSnapshot db i with
  | none =>
    constructor
    · rintro ⟨a, b, hab⟩
      cases hab
    · rintro ⟨⟨s, hs, _⟩, _⟩
      cases hs
  | some s1 =>
    cases hfj : findUniqueSnapshot db j with
    | none =>
      constructor
      · rintro ⟨a, b, hab⟩
        cases hab
      · rintro ⟨_, ⟨s, hs, _⟩⟩
        cases hs
    | some s2 =>
      dsimp only
      by_cases hh : s1.hotelId ≠ hotelId ∨ s2.hotelId ≠ hotelId
      · rw [if_pos hh]
        constructor
        · rintro ⟨a, b, hab⟩
          cases hab
        · rintro ⟨⟨s, hs, hsh⟩, ⟨t, ht, hth⟩⟩
          cases hs
          cases ht
          exact (hh.elim (fun ha => ha hsh) (fun hb => hb hth)).elim
      · rw [if_neg hh]
        push_neg at hh
        constructor
        · intro _
          exact ⟨⟨s1, rfl, hh.1⟩, ⟨s2, rfl, hh.2⟩⟩
        · intro _
          by_cases ht : s2.snapshotTime < s1.snapshotTime
          · rw [if_pos ht]
            exact ⟨s2, s1, rfl⟩
          · rw [if_neg ht]
            exact ⟨s1, s2, rfl⟩

/-- An endpoint answers with a payload iff its selection succeeded. -/
theorem dailyPickupEndpoint_ok_iff (db : DB) (hotelId : Nat) (q : PickupQuery) :
    (∃ p, dailyPickupEndpoint db hotelId q = EndpointResult.ok p) ↔
    (∃ a b, selectPickupSnapshots db hotelId q = SelectResult.ok a b) := by
  unfold dailyPickupEndpoint
  cases hsel : selectPickupSnapshots db hotelId q with
  | ok a b =>
    exact ⟨fun _ => ⟨a, b, rfl⟩, fun _ => ⟨(a.id, b.id, dailyPickup db a b), rfl⟩⟩
  | notFound =>
    constructor
    · rintro ⟨p, hp⟩
      cases hp
    · rintro ⟨a, b, hab⟩
      cases hab
  | wrongHotel =>
    constructor
    · rintro ⟨p, hp⟩
      cases hp
    · rintro ⟨a, b, hab⟩
      cases hab
  | needTwo =>
    constructor
    · rintro ⟨p, hp⟩
      cases hp
    · rintro ⟨a, b, hab⟩
      cases hab

/-- Same for the monthly pickup endpoint. -/
theorem pickupEndpoint_ok_iff (db : DB) (today : CalDate) (hotelId : Nat)
    (q : PickupQuery) :
    (∃ p, pickupEndpoint db today hotelId q = EndpointResult.ok p) ↔
    (∃ a b, selectPickupSnapshots db hotelId q = SelectResult.ok a b) := by
  unfold pickupEndpoint
  cases hsel : selectPickupSnapshots db hotelId q with
  | ok a b =>
    refine ⟨fun _ => ⟨a, b, rfl⟩, fun _ => ⟨_, rfl⟩⟩
  | notFound =>
    constructor
    · rintro ⟨p, hp⟩
      cases hp
    · rintro ⟨a, b, hab⟩
      cases hab
  | wrongHotel =>
    constructor
    · rintro ⟨p, hp⟩
      cases hp
    · rintro ⟨a, b, hab⟩
      cases hab
  | needTwo =>
    constructor
    · rintro ⟨p, hp⟩
      cases hp
    · rintro ⟨a, b, hab⟩
      cases hab

/-- C10: with both ids supplied explicitly, both pickup endpoints accept iff
the two snapshots exist and belong to the requested hotel — no condition on
processing status or the seed flag, so PENDING, PROCESSING, FAILED and seed
snapshots are all accepted; and the COMPLETED/non-seed filters hold of
whatever the default path (no ids supplied) selects. -/
theorem c10_explicit_ids_only_existence_and_ownership (db : DB) (today : CalDate)
    (hotelId i j : Nat) :
    ((∃ p, pickupEndpoint db today hotelId ⟨some i, some j⟩ = EndpointResult.ok p) ↔
      ((∃ s, findUniqueSnapshot db i = some s ∧ s.hotelId = hotelId) ∧
       (∃ s, findUniqueSnapshot db j = some s ∧ s.hotelId = hotelId))) ∧
    ((∃ p, dailyPickupEndpoint db hotelId ⟨some i, some j⟩ = EndpointResult.ok p) ↔
      ((∃ s, findUniqueSnapshot db i = some s ∧ s.hotelId = hotelId) ∧
       (∃ s, findUniqueSnapshot db j = some s ∧ s.hotelId = hotelId))) ∧
    (∀ a b, selectPickupSnapshots db hotelId ⟨none, none⟩ = SelectResult.ok a b →
      (a.hotelId = hotelId ∧ a.processed = true ∧
       a.processingStatus = ProcStatus.COMPLETED ∧ a.isSeedSnapshot = false) ∧
      (b.hotelId = hotelId ∧ b.processed = true ∧
       b.processingStatus = ProcStatus.COMPLETED ∧ b.isSeedSnapshot = false)) := by
  refine ⟨(pickupEndpoint_ok_iff db today hotelId _).trans
      (select_explicit_ok_iff db hotelId i j),
    (dailyPickupEndpoint_ok_iff db hotelId _).trans
      (select_explicit_ok_iff db hotelId i j),
    fun a b hab => ?_⟩
  unfold selectPickupSnapshots at hab
  dsimp only at hab
  rcases hlist : latestTwoCompleted db hotelId with _ | ⟨x, _ | ⟨y, _ | ⟨z, t⟩⟩⟩
  · rw [hlist] at hab
    cases hab
  · rw [hlist] at hab
    cases hab
  · rw [hlist] at hab
    have hxm : x ∈ latestTwoCompleted db hotelId := by
      rw [hlist]
      exact List.mem_cons_self _ _
    have hym : y ∈ latestTwoCompleted db hotelId := by
      rw [hlist]
      exact List.mem_cons_of_mem _ (List.mem_cons_self _ _)
    dsimp only at hab
    by_cases hc : x.snapshotTime < y.snapshotTime
    · rw [if_pos hc] at hab
      cases hab
      exact ⟨mem_latestTwoCompleted hxm, mem_latestTwoCompleted hym⟩
    · rw [if_neg hc] at hab
      cases hab
      exact ⟨mem_latestTwoCompleted hym, mem_latestTwoCompleted hxm⟩
  · rw [hlist] at hab
    cases hab

/-- A store with one FAILED seed snapshot and one PENDING snapshot, both of
hotel 1: both are accepted as explicit comparison inputs. -/
def failedSeedSnap : Snapshot :=
  { id := 40, hotelId := 1, snapshotTime := 0, originalFilename := "s".data,
    blobUrl := "s".data, fileHash := "hf".data, totalAvailableRoomsSnapshot := 120,
    isSeedSnapshot := true, processed := false, processingStatus := .FAILED,
    processingError := some "bad".data, rowCount := none }

def pendingSnapB : Snapshot :=
  { id := 41, hotelId := 1, snapshotTime := 9, originalFilename := "p".data,
    blobUrl := "p".data, fileHash := "hp".data, totalAvailableRoomsSnapshot := 120,
    isSeedSnapshot := false, processed := false, processingStatus := .PENDING,
    processingError := none, rowCount := none }

def mixedDB : DB :=
  { snapshots := [failedSeedSnap, pendingSnapB], rows := [],
    nextSnapshotId := 42, nextRowId := 0 }

/-- Witness for C10: the daily pickup endpoint accepts a FAILED seed
snapshot and a PENDING snapshot as explicit inputs. -/
theorem c10_explicit_ids_only_existence_and_ownership_witness :
    ∃ p, dailyPickupEndpoint mixedDB 1 ⟨some 40, some 41⟩ = EndpointResult.ok p :=
  ((c10_explicit_ids_only_existence_and_ownership mixedDB ⟨2025, 1, 1⟩ 1 40 41).2.1).mpr
    ⟨⟨failedSeedSnap, by decide, by decide⟩, ⟨pendingSnapB, by decide, by decide⟩⟩

/-! ## C8 (amended): string lemmas for the round trip -/

/-- Splitting a separator-free string yields that string as the only field. -/
theorem splitCh_no_sep (sep : Char) (l : List Char) (h : sep ∉ l) :
    splitCh sep l = [l] := by
  induction l with
  | nil => rfl
  | cons c rest ih =>
    have hc : ¬ c = sep := by
      intro hce
      subst hce
      exact h (List.mem_cons_self _ _)
    have hr : sep ∉ rest := fun hmr => h (List.mem_cons_of_mem _ hmr)
    simp only [splitCh]
    rw [if_neg hc, ih hr]

/-- Splitting a ++ sep :: b when a is separator-free peels off a. -/
theorem splitCh_append (sep : Char) (a b : List Char) (h : sep ∉ a) :
    splitCh sep (a ++ sep :: b) = a :: splitCh sep b := by
  induction a with
  | nil =>
    simp only [List.nil_append, splitCh]
    rw [if_pos trivial]
  | cons c rest ih =>
    have hc : ¬ c = sep := by
      intro hce
      subst hce
      exact h (List.mem_cons_self _ _)
    have hrest : sep ∉ rest := fun hmr => h (List.mem_cons_of_mem _ hmr)
    simp only [List.cons_append, splitCh, List.append_eq]
    rw [if_neg hc, ih hrest]

/-- The digit characters are decimal digits, neither slash nor space, and
carry their digit value. -/
theorem digitChar_props : ∀ k < 10, (digitChar k).isDigit = true ∧
    digitChar k ≠ '/' ∧ digitChar k ≠ ' ' ∧ (digitChar k).toNat - 48 = k := by
  decide

/-- Neither slash nor space occurs in a pad2 rendering. -/
theorem pad2_no_sep (n : Nat) : '/' ∉ pad2 n ∧ ' ' ∉ pad2 n := by
  have h1 := digitChar_props (n / 10 % 10) (Nat.mod_lt _ (by omega))
  have h2 := digitChar_props (n % 10) (Nat.mod_lt _ (by omega))
  constructor
  · intro hm
    rcases List.mem_cons.mp hm with he | hm2
    · exact h1.2.1 he.symm
    · rcases List.mem_cons.mp hm2 with he | hm3
      · exact h2.2.1 he.symm
      · cases hm3
  · intro hm
    rcases List.mem_cons.mp hm with he | hm2
    · exact h1.2.2.1 he.symm
    · rcases List.mem_cons.mp hm2 with he | hm3
      · exact h2.2.2.1 he.symm
      · cases hm3

/-- Number() recovers n < 100 from its pad2 rendering. -/
theorem jsNumberValue_pad2 (n : Nat) (hn : n < 100) :
    jsNumberValue (pad2 n) = some n := by
  have h1 := digitChar_props (n / 10 % 10) (Nat.mod_lt _ (by omega))
  have h2 := digitChar_props (n % 10) (Nat.mod_lt _ (by omega))
  unfold jsNumberValue
  rw [if_neg (by simp [pad2])]
  rw [if_pos (by
    simp only [pad2, List.all_cons, List.all_nil, Bool.and_true]
    rw [h1.1, h2.1]
    rfl)]
  unfold digitsVal pad2
  simp only [List.foldl_cons, List.foldl_nil]
  rw [Nat.zero_mul, Nat.zero_add]
  rw [h1.2.2.2, h2.2.2.2]
  have hsum : n / 10 % 10 * 10 + n % 10 = n := by omega
  rw [hsum]

/-- The truthiness filter of the date parser accepts pad2 n for n in [1, 99]. -/
theorem jsTruthyNum_pad2 (n : Nat) (h1 : 1 ≤ n) (h99 : n ≤ 99) :
    jsTruthyNum (some (pad2 n)) = some n := by
  unfold jsTruthyNum
  rw [Option.some_bind, jsNumberValue_pad2 n (by omega)]
  cases n with
  | zero => omega
  | succ k => rfl

/-- Every month has at most 31 days. -/
theorem daysInMonth_le_31 (y m : Nat) : daysInMonth y m ≤ 31 := by
  unfold daysInMonth
  by_cases h2 : m = 2
  · rw [if_pos h2]
    by_cases hl : isLeapYear y = true
    · rw [if_pos hl]
      omega
    · rw [if_neg hl]
      omega
  · rw [if_neg h2]
    by_cases h30 : m = 4 ∨ m = 6 ∨ m = 9 ∨ m = 11
    · rw [if_pos h30]
      omega
    · rw [if_neg h30]

/-- C8 amended: for every calendar-valid DD/MM/YY date with two-digit year
in [01, 99], the DD/MM/YY rendering of the calendar date 2000+YY / MM / DD
parses back to exactly that date, and formatDDMMYY reproduces the same
string — so parsing succeeds, and reformat-and-reparse yields the identical
calendar date. (Year 00 is excluded: see the counterexample.) -/
theorem c8_roundtrip_for_years_01_to_99 (d m y : Nat)
    (hy1 : 1 ≤ y) (hy2 : y ≤ 99) (hm1 : 1 ≤ m) (hm2 : m ≤ 12)
    (hd1 : 1 ≤ d) (hd2 : d ≤ daysInMonth (2000 + y) m) :
    formatDDMMYY ⟨2000 + y, m, d⟩ = pad2 d ++ '/' :: (pad2 m ++ '/' :: pad2 y) ∧
    parseStayDate (formatDDMMYY ⟨2000 + y, m, d⟩) = some ⟨2000 + y, m, d⟩ := by
  have hfmt : formatDDMMYY ⟨2000 + y, m, d⟩ =
      pad2 d ++ '/' :: (pad2 m ++ '/' :: pad2 y) := by
    unfold formatDDMMYY
    have hmod : (2000 + y) % 100 = y := by omega
    rw [hmod]
  refine ⟨hfmt, ?_⟩
  rw [hfmt]
  have hnospace : ' ' ∉ pad2 d ++ '/' :: (pad2 m ++ '/' :: pad2 y) := by
    intro hm0
    rcases List.mem_append.mp hm0 with hma | hmb
    · exact (pad2_no_sep d).2 hma
    · rcases List.mem_cons.mp hmb with he | hmc
      · exact absurd he.symm (by decide)
      · rcases List.mem_append.mp hmc with hmd | hme
        · exact (pad2_no_sep m).2 hmd
        · rcases List.mem_cons.mp hme with he | hmf
          · exact absurd he.symm (by decide)
          · exact (pad2_no_sep y).2 hmf
  unfold parseStayDate
  rw [splitCh_no_sep ' ' _ hnospace]
  simp only [List.headD]
  rw [splitCh_append '/' _ _ (pad2_no_sep d).1,
      splitCh_append '/' _ _ (pad2_no_sep m).1,
      splitCh_no_sep '/' _ (pad2_no_sep y).1]
  simp only [List.getElem?_cons_zero, List.getElem?_cons_succ]
  rw [jsTruthyNum_pad2 d hd1 (by
        have h31 := daysInMonth_le_31 (2000 + y) m
        omega),
      jsTruthyNum_pad2 m hm1 (by omega),
      jsTruthyNum_pad2 y hy1 hy2]
  dsimp only
  rw [if_neg (by
    push_neg
    refine ⟨hd1, ?_⟩
    have h31 := daysInMonth_le_31 (2000 + y) m
    omega)]
  rw [if_neg (by
    push_neg
    exact ⟨hm1, by omega⟩)]
  rw [if_pos hd2]


/-- Witness for C8's amended theorem at the concrete date 01/11/25. -/
theorem c8_roundtrip_for_years_01_to_99_witness :
    formatDDMMYY ⟨2025, 11, 1⟩ = pad2 1 ++ '/' :: (pad2 11 ++ '/' :: pad2 25) ∧
    parseStayDate (formatDDMMYY ⟨2025, 11, 1⟩) = some ⟨2025, 11, 1⟩ :=
  c8_roundtrip_for_years_01_to_99 1 11 25 (by decide) (by decide) (by decide)
    (by decide) (by decide) (by decide)

end RevPerfect
